import Mathlib

/-!
A verification development for the Gizmo pixel-art scripting language
(repository `coldielb/gizmo`).

The repository contains two parallel variants of the language core:

* the richer variant (`interpreter_modules/`): event handlers, three
  generator forms (`pattern` / `animate` / `evolve`), parent-chained
  environments, explicit `return`;
* the leaner variant (`src/`): a single flat environment, plain `pattern`
  generators with a distinguished return expression, assignment statements.

Both are embedded below, the richer one in namespace `RM`
(for the files under `interpreter_modules/`) and the leaner one in
namespace `SM` (for the files under `src/`).  Each Lean definition is a
direct transcription of the correspondingly named Rust item.

Modelling conventions:

* Rust `f64` is modelled by `GF`: an exact rational (`GF.fin`) or the
  IEEE-754 NaN (`GF.nan`).  Rounding and overflow-to-infinity of `f64`
  are abstracted away (arithmetic on in-range rationals is treated as
  exact); NaN propagation and the IEEE comparison semantics (every
  comparison involving NaN is false) are modelled faithfully, because the
  interpreter's division/modulo-by-zero handling depends on them.
* The transcendental `f64` operations (`sin`, `cos`, `tan`, `sqrt`,
  `powf`, `atan2`), the random generator and `str::parse::<f64>` have no
  exact rational counterpart; they are taken as an explicit parameter
  (`FloatOracle`).  Every theorem below is independent of the oracle.
* Rust `HashMap<String, _>` is modelled as an association list whose
  `insert` conses at the front and whose lookup takes the first match:
  observationally equal to the source, which only ever inserts and looks
  up (it never iterates a map).
* Potentially non-terminating recursion (tree-walking interpreter and
  recursive-descent parser) is modelled with an explicit fuel parameter;
  exhausted fuel yields the distinguished outcome `RunErr.fuel`, disjoint
  from every error the program itself can produce.
-/

set_option maxHeartbeats 2000000

/-- Error taxonomy shared verbatim by both variants (`error.rs`). -/
inductive GizmoError
  | lexError (msg : String)
  | parseError (msg : String)
  | runtimeError (msg : String)
  | typeError (msg : String)
  | indexError (msg : String)
  | divisionByZero
  | invalidFrameSize (msg : String)
  | undefinedVariable (name : String)
  | undefinedFunction (name : String)
  | argumentError (msg : String)
  | ioError (msg : String)
  deriving Repr, DecidableEq

/-- Outcome of a fuelled computation: a genuine interpreter/parser error,
or fuel exhaustion (an artefact of the embedding, not of the program). -/
inductive RunErr
  | err (e : GizmoError)
  | fuel
  deriving Repr, DecidableEq

/-- Exact fraction representation of a finite `f64` value: an integer
numerator over an integer denominator.  Fractions are deliberately left
unnormalised (no gcd reduction) so that every operation reduces in the
kernel; each operation keeps the denominator positive, and every fraction
the embedded code constructs from a literal has denominator 1. -/
structure GQ where
  num : ℤ
  den : ℤ
  deriving Repr, DecidableEq

instance (n : Nat) : OfNat GQ n := ⟨⟨n, 1⟩⟩

namespace GQ

/-- The fraction `n / 1`. -/
def int (n : ℤ) : GQ := ⟨n, 1⟩

/-- The fraction `n / 1` for a natural number. -/
def ofNat (n : ℕ) : GQ := ⟨n, 1⟩

/-- Positivity of the denominator: the invariant every constructed
fraction satisfies. -/
def WFq (x : GQ) : Prop := 0 < x.den

def add (x y : GQ) : GQ := ⟨x.num * y.den + y.num * x.den, x.den * y.den⟩

def sub (x y : GQ) : GQ := ⟨x.num * y.den - y.num * x.den, x.den * y.den⟩

def mul (x y : GQ) : GQ := ⟨x.num * y.num, x.den * y.den⟩

def neg (x : GQ) : GQ := ⟨-x.num, x.den⟩

def absQ (x : GQ) : GQ := ⟨|x.num|, |x.den|⟩

/-- Exact division, moving the divisor's sign into the numerator to keep
the denominator positive.  Callers guard against a zero divisor. -/
def div (x y : GQ) : GQ :=
  if y.num < 0 then ⟨-(x.num * y.den), x.den * (-y.num)⟩
  else ⟨x.num * y.den, x.den * y.num⟩

/-- Semantic test against zero (independent of the representation). -/
def isZero (x : GQ) : Bool := x.num = 0

/-- `<` by cross multiplication (denominators positive). -/
def blt (x y : GQ) : Bool := x.num * y.den < y.num * x.den

/-- `≤` by cross multiplication (denominators positive). -/
def ble (x y : GQ) : Bool := x.num * y.den ≤ y.num * x.den

/-- `⌊x⌋` (floor division; denominators positive). -/
def floorQ (x : GQ) : ℤ := x.num.fdiv x.den

/-- `⌈x⌉ = -⌊-x⌋`. -/
def ceilQ (x : GQ) : ℤ := -((neg x).floorQ)

/-- Truncation toward zero, as in Rust float-to-integer casts and the
sign convention of `f64::%`. -/
def trunc (x : GQ) : ℤ := if 0 ≤ x.num then floorQ x else -(floorQ (neg x))

end GQ

/-- Decidable equality for `Except` results (used to settle concrete
runs by `decide`). -/
instance {e a : Type} [DecidableEq e] [DecidableEq a] : DecidableEq (Except e a) := fun x y =>
  match x, y with
  | .ok u, .ok v =>
    if h : u = v then isTrue (by rw [h]) else isFalse (fun hc => by cases hc; exact h rfl)
  | .error u, .error v =>
    if h : u = v then isTrue (by rw [h]) else isFalse (fun hc => by cases hc; exact h rfl)
  | .ok _, .error _ => isFalse (fun hc => by cases hc)
  | .error _, .ok _ => isFalse (fun hc => by cases hc)

/-- The error of a fuelled run, when it failed. -/
def exceptErr {a : Type} : Except RunErr a → Option RunErr
  | .error e => some e
  | .ok _ => none

/-- Model of `f64`: an exact fraction or NaN.  Infinities and rounding
are not modelled (see the header comment). -/
inductive GF
  | fin (q : GQ)
  | nan
  deriving Repr, DecidableEq

namespace GF

def add : GF → GF → GF
  | fin a, fin b => fin (a.add b)
  | _, _ => nan

def sub : GF → GF → GF
  | fin a, fin b => fin (a.sub b)
  | _, _ => nan

def mul : GF → GF → GF
  | fin a, fin b => fin (a.mul b)
  | _, _ => nan

/-- Division as used by both interpreters.  Every call site is guarded by
the source's `right == 0.0` test, so the `b = 0` case (IEEE ±inf) is
unreachable; it is mapped to `nan` for totality. -/
def protDiv : GF → GF → GF
  | fin a, fin b => if b.isZero then nan else fin (a.div b)
  | _, _ => nan

/-- Rust `%` on `f64`: remainder with the dividend's sign
(`l - r * trunc(l / r)`); `x % 0.0` is NaN. -/
def rem : GF → GF → GF
  | fin a, fin b => if b.isZero then nan else fin (a.sub (b.mul (GQ.int (GQ.trunc (a.div b)))))
  | _, _ => nan

def neg : GF → GF
  | fin a => fin a.neg
  | nan => nan

def absF : GF → GF
  | fin a => fin a.absQ
  | nan => nan

def floorF : GF → GF
  | fin a => fin (GQ.int a.floorQ)
  | nan => nan

def ceilF : GF → GF
  | fin a => fin (GQ.int a.ceilQ)
  | nan => nan

/-- IEEE `==` against `0.0` (`NaN == 0.0` is false). -/
def beqZero : GF → Bool
  | fin a => a.isZero
  | nan => false

/-- IEEE `!=` against `0.0` (`NaN != 0.0` is true). -/
def neZero (x : GF) : Bool := !(beqZero x)

/-- IEEE `<` (false whenever either side is NaN). -/
def ltB : GF → GF → Bool
  | fin a, fin b => a.blt b
  | _, _ => false

/-- IEEE `>` (false whenever either side is NaN). -/
def gtB : GF → GF → Bool
  | fin a, fin b => b.blt a
  | _, _ => false

/-- IEEE `<=` (false whenever either side is NaN). -/
def leB : GF → GF → Bool
  | fin a, fin b => a.ble b
  | _, _ => false

/-- IEEE `>=` (false whenever either side is NaN). -/
def geB : GF → GF → Bool
  | fin a, fin b => b.ble a
  | _, _ => false

/-- IEEE `< 0.0` (false on NaN), used for the `sqrt` negativity guard. -/
def isNegative : GF → Bool
  | fin a => a.blt (GQ.int 0)
  | nan => false

/-- Rust `as usize` / `as u64` on `f64`: truncate toward zero, saturate
negatives (and NaN) to 0.  Saturation at the top of the integer range is
not modelled (values that large never arise in the claims). -/
def toUnsigned : GF → Nat
  | fin q => q.trunc.toNat
  | nan => 0

/-- Rust `as i32` on `f64`: truncate toward zero, saturating at the i32
range; NaN casts to 0. -/
def toI32 : GF → ℤ
  | fin q => max (-2147483648) (min 2147483647 q.trunc)
  | nan => 0

end GF

/-- `f64::EPSILON` = 2⁻⁵². -/
def f64Epsilon : GQ := ⟨1, 4503599627370496⟩

/-- The `f64` operations with no exact rational model, abstracted as a
parameter.  `random` stands for one draw of `thread_rng().gen::<f64>()`
(the hidden RNG state is not modelled); `parseNum` stands for
`str::parse::<f64>` (`none` = parse failure). -/
structure FloatOracle where
  sinF : GF → GF
  cosF : GF → GF
  tanF : GF → GF
  sqrtF : GF → GF
  powF : GF → GF → GF
  atan2F : GF → GF → GF
  random : GF
  parseNum : String → Option GF

/-- A concrete oracle used only to instantiate witnesses. -/
def dummyOracle : FloatOracle :=
  { sinF := fun _ => GF.nan
    cosF := fun _ => GF.nan
    tanF := fun _ => GF.nan
    sqrtF := fun _ => GF.nan
    powF := fun _ _ => GF.nan
    atan2F := fun _ _ => GF.nan
    random := GF.nan
    parseNum := fun _ => none }

/-! ## The richer variant (`interpreter_modules/`) -/

namespace RM

/-- `ast.rs`: variable declaration types. -/
inductive VariableType
  | frame
  | frames
  | num
  | text
  deriving Repr, DecidableEq

/-- `ast.rs`: binary operators. -/
inductive BinaryOperator
  | add
  | subtract
  | multiply
  | divide
  | modulo
  | power
  | equal
  | notEqual
  | less
  | greater
  | lessEqual
  | greaterEqual
  | and
  | or
  deriving Repr, DecidableEq

/-- `ast.rs`: unary operators. -/
inductive UnaryOperator
  | not
  | minus
  deriving Repr, DecidableEq

mutual

/-- `ast.rs`: statements of the richer variant. -/
inductive Statement
  | variableDeclaration (varType : VariableType) (name : String) (value : Expression)
  | expressionStatement (expr : Expression)
  | ifStatement (condition : Expression) (thenBlock : List Statement)
      (elsifBlocks : List (Expression × List Statement)) (elseBlock : Option (List Statement))
  | repeatStatement (times : Expression) (body : List Statement)
  | whenStatement (event : Event) (body : List Statement)
  | returnStatement (e : Expression)

/-- `ast.rs`: events a `when` statement can register for. -/
inductive Event
  | clicked
  | idle (time : Expression)

/-- `ast.rs`: expressions of the richer variant. -/
inductive Expression
  | number (n : GF)
  | string (s : String)
  | boolean (b : Bool)
  | identifier (name : String)
  | array (elements : List Expression)
  | functionCall (name : String) (args : List Expression)
  | binary (left : Expression) (operator : BinaryOperator) (right : Expression)
  | unary (operator : UnaryOperator) (operand : Expression)
  | indexOp (object : Expression) (idx : Expression)
  | patternGenerator (width height : Expression) (body : List Statement)
  | animatedGenerator (width height : Expression) (timeVar : String) (body : List Statement)
  | cellularGenerator (width height : Expression) (prevVar : String) (body : List Statement)
  | conditional (condition thenExpr elseExpr : Expression)

end

/-- `ast.rs`: a program is an ordered statement sequence. -/
structure Program where
  statements : List Statement

/-- `ast.rs`: `Frame` — width, height, row-major boolean grid. -/
structure Frame where
  width : Nat
  height : Nat
  pixels : List (List Bool)
  deriving Repr, DecidableEq

/-- `ast.rs`: runtime values.  A `Function` value carries parameters, a
body and captured bindings but has no call path in the source. -/
inductive Value
  | number (n : GF)
  | string (s : String)
  | boolean (b : Bool)
  | frame (f : Frame)
  | frames (fs : List Frame)
  | function (params : List String) (body : List Statement) (closure : List (String × Value))

/-- Read a pixel of the raw grid (`pixels[row][col]`).  The source panics
on a ragged or undersized grid; both interpreters only index within the
invariant-respecting bounds, where the default is never taken. -/
def Frame.pix (f : Frame) (row col : Nat) : Bool :=
  ((f.pixels.getD row []).getD col false)

/-- `Frame::new(width, height)`: an all-off grid. -/
def Frame.blank (width height : Nat) : Frame :=
  { width := width
    height := height
    pixels := List.replicate height (List.replicate width false) }

/-- The row-length check loop inside `Frame::from_array`, reporting the
first offending row index. -/
def checkRows (width : Nat) : List (List Bool) → Nat → Except GizmoError Unit
  | [], _ => .ok ()
  | row :: rest, i =>
    if row.length ≠ width then
      .error (.invalidFrameSize
        ("Row " ++ toString i ++ " has length " ++ toString row.length ++
         " but expected " ++ toString width))
    else
      checkRows width rest (i + 1)

/-- `Frame::from_array`: reject an empty grid, require every row to have
the first row's length, and take that length as the width. -/
def Frame.fromArray (data : List (List Bool)) : Except GizmoError Frame :=
  match data with
  | [] => .error (.invalidFrameSize "Frame cannot be empty")
  | _ =>
    let width := (data.headD []).length
    match checkRows width data 0 with
    | .error e => .error e
    | .ok _ => .ok { width := width, height := data.length, pixels := data }

/-- `Frame::get_pixel` (bounds-checked). -/
def Frame.getPixel (f : Frame) (row col : Nat) : Except GizmoError Bool :=
  if row ≥ f.height ∨ col ≥ f.width then
    .error (.indexError
      ("Pixel (" ++ toString row ++ ", " ++ toString col ++ ") is out of bounds for " ++
       toString f.width ++ "x" ++ toString f.height ++ " frame"))
  else
    .ok (f.pix row col)

/-- `Frame::set_pixel` (bounds-checked). -/
def Frame.setPixel (f : Frame) (row col : Nat) (value : Bool) : Except GizmoError Frame :=
  if row ≥ f.height ∨ col ≥ f.width then
    .error (.indexError
      ("Pixel (" ++ toString row ++ ", " ++ toString col ++ ") is out of bounds for " ++
       toString f.width ++ "x" ++ toString f.height ++ " frame"))
  else
    .ok { f with pixels := f.pixels.set row ((f.pixels.getD row []).set col value) }

/-- The Moore-neighbourhood offsets traversed by the `count_neighbors`
double loop, in loop order, with the centre cell skipped. -/
def neighborOffsets : List (ℤ × ℤ) :=
  [(-1, -1), (-1, 0), (-1, 1), (0, -1), (0, 1), (1, -1), (1, 0), (1, 1)]

/-- `Frame::count_neighbors`: count in-bounds, on neighbours; no
wraparound. -/
def Frame.countNeighbors (f : Frame) (row col : Nat) : Nat :=
  neighborOffsets.foldl
    (fun count d =>
      let nr : ℤ := (row : ℤ) + d.1
      let nc : ℤ := (col : ℤ) + d.2
      if 0 ≤ nr ∧ nr < (f.height : ℤ) ∧ 0 ≤ nc ∧ nc < (f.width : ℤ) ∧
          f.pix nr.toNat nc.toNat then count + 1
      else count)
    0

/-- `Frame::flip`: invert every pixel. -/
def Frame.flip (f : Frame) : Frame :=
  { f with pixels := f.pixels.map (fun row => row.map (fun p => !p)) }

/-- `Frame::rotate_90`.  The source allocates a `height × width` matrix of
`false` and assigns `new_pixels[col][self.height - 1 - row] =
self.pixels[row][col]` for every `row < height`, `col < width`; those
targets cover each cell of the new matrix exactly once, so the grid is
written here directly cell by cell. -/
def Frame.rotate90 (f : Frame) : Frame :=
  { width := f.height
    height := f.width
    pixels :=
      (List.range f.width).map (fun i =>
        (List.range f.height).map (fun j => f.pix (f.height - 1 - j) i)) }

/-- `Frame::place_sprite`: OR-composite `sprite` at integer offset
`(x, y)`, clipping out-of-bounds sprite pixels. -/
def Frame.placeSprite (f : Frame) (sprite : Frame) (x y : ℤ) : Frame :=
  (List.range sprite.height).foldl
    (fun acc row =>
      (List.range sprite.width).foldl
        (fun acc col =>
          let targetRow := y + Int.ofNat row
          let targetCol := x + Int.ofNat col
          if 0 ≤ targetRow ∧ targetRow < (acc.height : ℤ) ∧
              0 ≤ targetCol ∧ targetCol < (acc.width : ℤ) ∧ sprite.pix row col then
            { acc with
              pixels := acc.pixels.set targetRow.toNat
                ((acc.pixels.getD targetRow.toNat []).set targetCol.toNat true) }
          else acc)
        acc)
    f

/-- `Value::type_name`. -/
def Value.typeName : Value → String
  | .number _ => "number"
  | .string _ => "string"
  | .boolean _ => "boolean"
  | .frame _ => "frame"
  | .frames _ => "frames"
  | .function _ _ _ => "function"

/-- `Value::is_truthy`.  Note `Number` uses IEEE `!= 0.0`, so NaN is
truthy. -/
def Value.isTruthy : Value → Bool
  | .number n => n.neZero
  | .string s => !(s.isEmpty)
  | .boolean b => b
  | .frame _ => true
  | .frames fs => !(fs.isEmpty)
  | .function _ _ _ => true

/-- `Value::to_number`: Number passes through, Boolean maps to 1/0,
String is parsed as `f64`, anything else is a type error. -/
def Value.toNumber (O : FloatOracle) : Value → Except GizmoError GF
  | .number n => .ok n
  | .boolean b => .ok (.fin (if b then 1 else 0))
  | .string s =>
    match O.parseNum s with
    | some g => .ok g
    | none => .error (.typeError ("Cannot convert string '" ++ s ++ "' to number"))
  | v => .error (.typeError ("Cannot convert " ++ v.typeName ++ " to number"))

end RM

namespace RM

/-- `interpreter.rs`: parent-chained `Environment`. -/
inductive Env
  | mk (vars : List (String × Value)) (parent : Option Env)

def Env.vars : Env → List (String × Value)
  | .mk vs _ => vs

def Env.parent : Env → Option Env
  | .mk _ p => p

/-- `Environment::new`. -/
def Env.new : Env := .mk [] none

/-- `Environment::new_enclosed`. -/
def Env.newEnclosed (parent : Env) : Env := .mk [] (some parent)

/-- `Environment::define`: insert into the current scope (replacing any
binding of the same name, modelled by front-consing with first-match
lookup). -/
def Env.define (e : Env) (name : String) (value : Value) : Env :=
  .mk ((name, value) :: e.vars) e.parent

/-- `Environment::get`: walk outward through parent links. -/
def Env.get : Env → String → Except GizmoError Value
  | .mk vs p, name =>
    match vs.lookup name with
    | some v => .ok v
    | none =>
      match p with
      | some parent => parent.get name
      | none => .error (.undefinedVariable name)

/-- `Environment::assign`: update the innermost scope containing the
name, else fail. -/
def Env.assign : Env → String → Value → Except GizmoError Env
  | .mk vs p, name, value =>
    if (vs.lookup name).isSome then
      .ok (.mk ((name, value) :: vs) p)
    else
      match p with
      | some parent =>
        match parent.assign name value with
        | .error e => .error e
        | .ok parent' => .ok (.mk vs (some parent'))
      | none => .error (.undefinedVariable name)

/-! ### `builtin.rs`: the builtin registry of the richer variant -/

def mathSin (O : FloatOracle) (args : List Value) : Except GizmoError Value :=
  match args with
  | [a] =>
    match a.toNumber O with
    | .error e => .error e
    | .ok n => .ok (.number (O.sinF n))
  | _ => .error (.argumentError ("sin expects 1 argument, got " ++ toString args.length))

def mathCos (O : FloatOracle) (args : List Value) : Except GizmoError Value :=
  match args with
  | [a] =>
    match a.toNumber O with
    | .error e => .error e
    | .ok n => .ok (.number (O.cosF n))
  | _ => .error (.argumentError ("cos expects 1 argument, got " ++ toString args.length))

def mathTan (O : FloatOracle) (args : List Value) : Except GizmoError Value :=
  match args with
  | [a] =>
    match a.toNumber O with
    | .error e => .error e
    | .ok n => .ok (.number (O.tanF n))
  | _ => .error (.argumentError ("tan expects 1 argument, got " ++ toString args.length))

def mathSqrt (O : FloatOracle) (args : List Value) : Except GizmoError Value :=
  match args with
  | [a] =>
    match a.toNumber O with
    | .error e => .error e
    | .ok n =>
      if n.isNegative then .error (.runtimeError "sqrt of negative number")
      else .ok (.number (O.sqrtF n))
  | _ => .error (.argumentError ("sqrt expects 1 argument, got " ++ toString args.length))

def mathFloor (O : FloatOracle) (args : List Value) : Except GizmoError Value :=
  match args with
  | [a] =>
    match a.toNumber O with
    | .error e => .error e
    | .ok n => .ok (.number n.floorF)
  | _ => .error (.argumentError ("floor expects 1 argument, got " ++ toString args.length))

def mathCeil (O : FloatOracle) (args : List Value) : Except GizmoError Value :=
  match args with
  | [a] =>
    match a.toNumber O with
    | .error e => .error e
    | .ok n => .ok (.number n.ceilF)
  | _ => .error (.argumentError ("ceil expects 1 argument, got " ++ toString args.length))

def mathAbs (O : FloatOracle) (args : List Value) : Except GizmoError Value :=
  match args with
  | [a] =>
    match a.toNumber O with
    | .error e => .error e
    | .ok n => .ok (.number n.absF)
  | _ => .error (.argumentError ("abs expects 1 argument, got " ++ toString args.length))

def mathRandom (O : FloatOracle) (args : List Value) : Except GizmoError Value :=
  if !args.isEmpty then
    .error (.argumentError ("random expects 0 arguments, got " ++ toString args.length))
  else
    .ok (.number O.random)

def frameCountNeighbors (O : FloatOracle) (args : List Value) : Except GizmoError Value :=
  match args with
  | [a, b, c] =>
    match a with
    | .frame f =>
      match b.toNumber O with
      | .error e => .error e
      | .ok rowN =>
        match c.toNumber O with
        | .error e => .error e
        | .ok colN =>
          let row := rowN.toUnsigned
          let col := colN.toUnsigned
          if row ≥ f.height ∨ col ≥ f.width then
            .error (.indexError
              ("Position (" ++ toString row ++ ", " ++ toString col ++ ") is out of bounds"))
          else
            .ok (.number (.fin (GQ.ofNat (f.countNeighbors row col))))
    | _ => .error (.typeError "count_neighbors first argument must be a frame")
  | _ => .error (.argumentError ("count_neighbors expects 3 arguments, got " ++ toString args.length))

def frameGetPixel (O : FloatOracle) (args : List Value) : Except GizmoError Value :=
  match args with
  | [a, b, c] =>
    match a with
    | .frame f =>
      match b.toNumber O with
      | .error e => .error e
      | .ok rowN =>
        match c.toNumber O with
        | .error e => .error e
        | .ok colN =>
          match f.getPixel rowN.toUnsigned colN.toUnsigned with
          | .error e => .error e
          | .ok p => .ok (.number (.fin (if p then 1 else 0)))
    | _ => .error (.typeError "get_pixel first argument must be a frame")
  | _ => .error (.argumentError ("get_pixel expects 3 arguments, got " ++ toString args.length))

def frameFlip (args : List Value) : Except GizmoError Value :=
  match args with
  | [a] =>
    match a with
    | .frame f => .ok (.frame f.flip)
    | _ => .error (.typeError "flip argument must be a frame")
  | _ => .error (.argumentError ("flip expects 1 argument, got " ++ toString args.length))

def frameRotate (args : List Value) : Except GizmoError Value :=
  match args with
  | [a] =>
    match a with
    | .frame f => .ok (.frame f.rotate90)
    | _ => .error (.typeError "rotate argument must be a frame")
  | _ => .error (.argumentError ("rotate expects 1 argument, got " ++ toString args.length))

def framePlaceSprite (O : FloatOracle) (args : List Value) : Except GizmoError Value :=
  match args with
  | [a, b, c] =>
    match a with
    | .frame sprite =>
      match b.toNumber O with
      | .error e => .error e
      | .ok xN =>
        match c.toNumber O with
        | .error e => .error e
        | .ok yN =>
          .ok (.frame ((Frame.blank 128 128).placeSprite sprite xN.toI32 yN.toI32))
    | _ => .error (.typeError "place_sprite first argument must be a frame (sprite)")
  | _ => .error (.argumentError ("place_sprite expects 3 arguments, got " ++ toString args.length))

def arrayAddFrame (args : List Value) : Except GizmoError Value :=
  match args with
  | [a, b] =>
    match a with
    | .frames fs =>
      match b with
      | .frame f => .ok (.frames (fs ++ [f]))
      | _ => .error (.typeError "add_frame second argument must be a frame")
    | _ => .error (.typeError "add_frame first argument must be a frames array")
  | _ => .error (.argumentError ("add_frame expects 2 arguments, got " ++ toString args.length))

def arrayLastFrame (args : List Value) : Except GizmoError Value :=
  match args with
  | [a] =>
    match a with
    | .frames fs =>
      match fs.getLast? with
      | some f => .ok (.frame f)
      | none => .error (.runtimeError "Cannot get last frame from empty array")
    | _ => .error (.typeError "last_frame argument must be a frames array")
  | _ => .error (.argumentError ("last_frame expects 1 argument, got " ++ toString args.length))

def frameEvolveFrom (args : List Value) : Except GizmoError Value :=
  match args with
  | [a, _b] =>
    match a with
    | .frame f => .ok (.frame f)
    | _ => .error (.typeError "evolve_from first argument must be a frame")
  | _ => .error (.argumentError ("evolve_from expects 2 arguments, got " ++ toString args.length))

/-- The inert `play` entry of the builtin table. -/
def animationPlayEntry (args : List Value) : Except GizmoError Value :=
  match args with
  | [a] =>
    match a with
    | .frames _ => .ok (.boolean true)
    | .frame _ => .ok (.boolean true)
    | _ => .error (.typeError "play argument must be a frame or frames array")
  | _ => .error (.argumentError ("play expects 1 argument, got " ++ toString args.length))

/-- The inert `loop` entry of the builtin table. -/
def animationLoopEntry (args : List Value) : Except GizmoError Value :=
  match args with
  | [a] =>
    match a with
    | .frames _ => .ok (.boolean true)
    | _ => .error (.typeError "loop argument must be a frames array")
  | _ => .error (.argumentError ("loop expects 1 argument, got " ++ toString args.length))

/-- The inert `play_speed` entry of the builtin table. -/
def animationPlaySpeedEntry (args : List Value) : Except GizmoError Value :=
  match args with
  | [a, b] =>
    match a, b with
    | .frames _, .number _ => .ok (.boolean true)
    | _, _ => .error (.typeError "play_speed expects frames array and number")
  | _ => .error (.argumentError ("play_speed expects 2 arguments, got " ++ toString args.length))

/-- The inert `stop` entry of the builtin table. -/
def animationStopEntry (_args : List Value) : Except GizmoError Value :=
  .ok (.boolean true)

/-- The names registered by `BuiltinFunctions::new`. -/
def builtinNames : List String :=
  ["sin", "cos", "tan", "sqrt", "floor", "ceil", "abs", "random",
   "count_neighbors", "get_pixel", "flip", "rotate", "place_sprite",
   "add_frame", "last_frame", "evolve_from",
   "play", "loop", "play_speed", "stop"]

/-- `BuiltinFunctions::has_function`. -/
def hasFunction (name : String) : Bool := builtinNames.contains name

/-- `BuiltinFunctions::call`: dispatch on the registered name. -/
def builtinCall (O : FloatOracle) (name : String) (args : List Value) :
    Except GizmoError Value :=
  match name with
  | "sin" => mathSin O args
  | "cos" => mathCos O args
  | "tan" => mathTan O args
  | "sqrt" => mathSqrt O args
  | "floor" => mathFloor O args
  | "ceil" => mathCeil O args
  | "abs" => mathAbs O args
  | "random" => mathRandom O args
  | "count_neighbors" => frameCountNeighbors O args
  | "get_pixel" => frameGetPixel O args
  | "flip" => frameFlip args
  | "rotate" => frameRotate args
  | "place_sprite" => framePlaceSprite O args
  | "add_frame" => arrayAddFrame args
  | "last_frame" => arrayLastFrame args
  | "evolve_from" => frameEvolveFrom args
  | "play" => animationPlayEntry args
  | "loop" => animationLoopEntry args
  | "play_speed" => animationPlaySpeedEntry args
  | "stop" => animationStopEntry args
  | _ => .error (.undefinedFunction name)

/-! ### `frame.rs`: animation state -/

/-- `frame.rs`: `AnimationState`. -/
structure AnimationState where
  currentFrame : Nat
  frames : List Frame
  loopAnimation : Bool
  frameDuration : Nat
  lastFrameTime : Nat
  deriving Repr, DecidableEq

/-- `AnimationState::new`. -/
def AnimationState.new (frames : List Frame) (loopAnimation : Bool)
    (frameDuration : Nat) : AnimationState :=
  { currentFrame := 0
    frames := frames
    loopAnimation := loopAnimation
    frameDuration := frameDuration
    lastFrameTime := 0 }

/-- The mutable fields of `Interpreter` (the builtin table is constant
and the ASCII `frame_renderer` is display-only, so neither is part of the
state). -/
structure InterpState where
  globals : Env
  environment : Env
  animationState : Option AnimationState
  currentTime : Nat
  eventHandlers : List (String × List Statement)
  outputFrames : List Frame

/-- `Interpreter::new` at wall-clock time `t`. -/
def InterpState.init (t : Nat) : InterpState :=
  { globals := Env.new
    environment := Env.new
    animationState := none
    currentTime := t
    eventHandlers := []
    outputFrames := [] }

/-! ### Pure helpers of `Interpreter` -/

/-- `Interpreter::values_equal`: structural equality, Numbers within
`f64::EPSILON` (IEEE `<`, hence false on NaN); unmatched variant pairs
(including two `Function` values) are false. -/
def valuesEqual : Value → Value → Bool
  | .number a, .number b => GF.ltB (GF.absF (GF.sub a b)) (.fin f64Epsilon)
  | .string a, .string b => a = b
  | .boolean a, .boolean b => a = b
  | .frame a, .frame b => a = b
  | .frames a, .frames b => a = b
  | _, _ => false

/-- `Interpreter::apply_binary_operator`. -/
def applyBinaryOperator (O : FloatOracle) (left : Value) (op : BinaryOperator)
    (right : Value) : Except GizmoError Value :=
  match op with
  | .add =>
    match left.toNumber O with
    | .error e => .error e
    | .ok l =>
      match right.toNumber O with
      | .error e => .error e
      | .ok r => .ok (.number (GF.add l r))
  | .subtract =>
    match left.toNumber O with
    | .error e => .error e
    | .ok l =>
      match right.toNumber O with
      | .error e => .error e
      | .ok r => .ok (.number (GF.sub l r))
  | .multiply =>
    match left.toNumber O with
    | .error e => .error e
    | .ok l =>
      match right.toNumber O with
      | .error e => .error e
      | .ok r => .ok (.number (GF.mul l r))
  | .divide =>
    match left.toNumber O with
    | .error e => .error e
    | .ok l =>
      match right.toNumber O with
      | .error e => .error e
      | .ok r =>
        if r.beqZero then .error .divisionByZero
        else .ok (.number (GF.protDiv l r))
  | .modulo =>
    match left.toNumber O with
    | .error e => .error e
    | .ok l =>
      match right.toNumber O with
      | .error e => .error e
      | .ok r =>
        if r.beqZero then .error .divisionByZero
        else .ok (.number (GF.rem l r))
  | .power =>
    match left.toNumber O with
    | .error e => .error e
    | .ok l =>
      match right.toNumber O with
      | .error e => .error e
      | .ok r => .ok (.number (O.powF l r))
  | .equal => .ok (.boolean (valuesEqual left right))
  | .notEqual => .ok (.boolean (!(valuesEqual left right)))
  | .less =>
    match left.toNumber O with
    | .error e => .error e
    | .ok l =>
      match right.toNumber O with
      | .error e => .error e
      | .ok r => .ok (.boolean (GF.ltB l r))
  | .greater =>
    match left.toNumber O with
    | .error e => .error e
    | .ok l =>
      match right.toNumber O with
      | .error e => .error e
      | .ok r => .ok (.boolean (GF.gtB l r))
  | .lessEqual =>
    match left.toNumber O with
    | .error e => .error e
    | .ok l =>
      match right.toNumber O with
      | .error e => .error e
      | .ok r => .ok (.boolean (GF.leB l r))
  | .greaterEqual =>
    match left.toNumber O with
    | .error e => .error e
    | .ok l =>
      match right.toNumber O with
      | .error e => .error e
      | .ok r => .ok (.boolean (GF.geB l r))
  | .and => .ok (.boolean (left.isTruthy && right.isTruthy))
  | .or => .ok (.boolean (left.isTruthy || right.isTruthy))

/-- `Interpreter::apply_unary_operator`. -/
def applyUnaryOperator (O : FloatOracle) (op : UnaryOperator) (operand : Value) :
    Except GizmoError Value :=
  match op with
  | .not => .ok (.boolean (!operand.isTruthy))
  | .minus =>
    match operand.toNumber O with
    | .error e => .error e
    | .ok n => .ok (.number n.neg)

/-- `Interpreter::apply_index_operator`. -/
def applyIndexOperator (object idx : Value) : Except GizmoError Value :=
  match object, idx with
  | .frame f, .number i =>
    let rowIdx := i.toUnsigned
    if rowIdx ≥ f.height then
      .error (.indexError ("Row index " ++ toString rowIdx ++ " out of bounds"))
    else
      match Frame.fromArray [f.pixels.getD rowIdx []] with
      | .error e => .error e
      | .ok rowFrame => .ok (.frame rowFrame)
  | .frames fs, .number i =>
    let frameIdx := i.toUnsigned
    if frameIdx ≥ fs.length then
      .error (.indexError ("Frame index " ++ toString frameIdx ++ " out of bounds"))
    else
      .ok (.frame (fs.getD frameIdx (Frame.blank 0 0)))
  | _, _ => .error (.typeError "Invalid index operation")

def isFrameValue : Value → Bool
  | .frame _ => true
  | _ => false

def isNumberValue : Value → Bool
  | .number _ => true
  | _ => false

/-- Extraction used under the all-Frame guard of the array-literal rule
(the non-frame branch is the source's `unreachable!`). -/
def asFrames : List Value → List Frame
  | [] => []
  | .frame f :: rest => f :: asFrames rest
  | _ :: rest => asFrames rest

/-- The pixel row built from an all-Number array literal
(`v.to_number()? != 0.0`; the guard makes `to_number` infallible). -/
def numRow (values : List Value) : List Bool :=
  values.map (fun v =>
    match v with
    | .number n => n.neZero
    | _ => false)

/-- The row-collection loop of `Interpreter::try_create_2d_frame`. -/
def collectRows : List Value → Except GizmoError (List (List Bool))
  | [] => .ok []
  | .frame f :: rest =>
    if f.height = 1 then
      match collectRows rest with
      | .error e => .error e
      | .ok rows => .ok (f.pixels.headD [] :: rows)
    else
      .error (.typeError "Cannot combine multi-row frames in array")
  | _ :: _ => .error (.typeError "Mixed array types in frame definition")

/-- `Interpreter::try_create_2d_frame`. -/
def tryCreate2dFrame (values : List Value) : Except GizmoError Value :=
  match collectRows values with
  | .error e => .error e
  | .ok rows =>
    if !rows.isEmpty then
      match Frame.fromArray rows with
      | .error e => .error e
      | .ok f => .ok (.frame f)
    else
      .error (.typeError "Cannot create frame from empty array")

end RM

namespace RM

/-- Row-major pixel coordinates `(row, col)` traversed by the generator
loops. -/
def coords (height width : Nat) : List (Nat × Nat) :=
  (List.range height).flatMap (fun row => (List.range width).map (fun col => (row, col)))

/-- The per-pixel child scope: a scope enclosed in (a clone of) the
generator's environment, binding `row`, `col` and the generator-specific
extras (`time_var` / `prev_var`). -/
def childScope (parent : Env) (row col : Nat) (extras : List (String × Value)) : Env :=
  extras.foldl (fun e p => e.define p.1 p.2)
    (((Env.newEnclosed parent).define "row" (.number (.fin (GQ.ofNat row)))).define
      "col" (.number (.fin (GQ.ofNat col))))

mutual

/-- `Interpreter::execute_statement`. -/
def executeStatement (O : FloatOracle) : Nat → Statement → InterpState →
    Except RunErr (Option Value × InterpState)
  | 0, _, _ => .error .fuel
  | n + 1, .variableDeclaration _ name value, st =>
    match evaluateExpression O n value st with
    | .error e => .error e
    | .ok (val, st') =>
      .ok (none, { st' with environment := st'.environment.define name val })
  | n + 1, .expressionStatement expr, st =>
    match evaluateExpression O n expr st with
    | .error e => .error e
    | .ok (result, st') =>
      match expr with
      | .functionCall name args =>
        if name = "play" ∨ name = "loop" ∨ name = "play_speed" then
          match handleAnimationFunction O n name args st' with
          | .error e => .error e
          | .ok st'' => .ok (some result, st'')
        else
          .ok (some result, st')
      | _ => .ok (some result, st')
  | n + 1, .ifStatement condition thenBlock elsifBlocks elseBlock, st =>
    match evaluateExpression O n condition st with
    | .error e => .error e
    | .ok (conditionValue, st') =>
      if conditionValue.isTruthy then
        executeBlock O n thenBlock st'
      else
        execElsifs O n elsifBlocks elseBlock st'
  | n + 1, .repeatStatement times body, st =>
    match evaluateExpression O n times st with
    | .error e => .error e
    | .ok (timesValue, st') =>
      match timesValue.toNumber O with
      | .error e => .error (.err e)
      | .ok count => repeatLoop O n count.toI32.toNat body st'
  | n + 1, .whenStatement event body, st =>
    match event with
    | .clicked =>
      .ok (none, { st with eventHandlers := ("clicked", body) :: st.eventHandlers })
    | .idle timeExpr =>
      match evaluateExpression O n timeExpr st with
      | .error e => .error e
      | .ok (timeValue, st') =>
        match timeValue.toNumber O with
        | .error e => .error (.err e)
        | .ok t =>
          let key := "idle_" ++ toString t.toUnsigned
          .ok (none, { st' with eventHandlers := (key, body) :: st'.eventHandlers })
  | n + 1, .returnStatement expr, st =>
    match evaluateExpression O n expr st with
    | .error e => .error e
    | .ok (value, st') => .ok (some value, st')
termination_by structural n _ _ => n

/-- The elsif-scanning loop of the `IfStatement` arm. -/
def execElsifs (O : FloatOracle) : Nat → List (Expression × List Statement) →
    Option (List Statement) → InterpState → Except RunErr (Option Value × InterpState)
  | 0, _, _, _ => .error .fuel
  | n + 1, [], elseBlock, st =>
    match elseBlock with
    | some elseBody => executeBlock O n elseBody st
    | none => .ok (none, st)
  | n + 1, (elsifCondition, elsifBody) :: rest, elseBlock, st =>
    match evaluateExpression O n elsifCondition st with
    | .error e => .error e
    | .ok (elsifValue, st') =>
      if elsifValue.isTruthy then
        executeBlock O n elsifBody st'
      else
        execElsifs O n rest elseBlock st'
termination_by structural n _ _ _ => n

/-- The iteration loop of the `RepeatStatement` arm (`for _i in 0..count`
with early return on an escaping value). -/
def repeatLoop (O : FloatOracle) : Nat → Nat → List Statement → InterpState →
    Except RunErr (Option Value × InterpState)
  | 0, _, _, _ => .error .fuel
  | _ + 1, 0, _, st => .ok (none, st)
  | n + 1, k + 1, body, st =>
    match executeBlock O n body st with
    | .error e => .error e
    | .ok (some returnValue, st') => .ok (some returnValue, st')
    | .ok (none, st') => repeatLoop O n k body st'
termination_by structural n _ _ _ => n

/-- `Interpreter::execute_block`: run statements until one produces an
escaping value. -/
def executeBlock (O : FloatOracle) : Nat → List Statement → InterpState →
    Except RunErr (Option Value × InterpState)
  | 0, _, _ => .error .fuel
  | _ + 1, [], st => .ok (none, st)
  | n + 1, stmt :: rest, st =>
    match executeStatement O n stmt st with
    | .error e => .error e
    | .ok (some returnValue, st') => .ok (some returnValue, st')
    | .ok (none, st') => executeBlock O n rest st'
termination_by structural n _ _ => n

/-- `Interpreter::evaluate_expression`. -/
def evaluateExpression (O : FloatOracle) : Nat → Expression → InterpState →
    Except RunErr (Value × InterpState)
  | 0, _, _ => .error .fuel
  | _ + 1, .number q, st => .ok (.number q, st)
  | _ + 1, .string s, st => .ok (.string s, st)
  | _ + 1, .boolean b, st => .ok (.boolean b, st)
  | _ + 1, .identifier name, st =>
    -- "time" is special-cased; "row"/"col" and every other name read the
    -- environment.
    if name = "time" then
      .ok (.number (.fin (GQ.ofNat st.currentTime)), st)
    else
      match st.environment.get name with
      | .error e => .error (.err e)
      | .ok v => .ok (v, st)
  | n + 1, .array elements, st =>
    match evalArgs O n elements st with
    | .error e => .error e
    | .ok (values, st') =>
      if values.all isFrameValue then
        .ok (.frames (asFrames values), st')
      else if values.all isNumberValue then
        match Frame.fromArray [numRow values] with
        | .error e => .error (.err e)
        | .ok f => .ok (.frame f, st')
      else
        match tryCreate2dFrame values with
        | .error e => .error (.err e)
        | .ok v => .ok (v, st')
  | n + 1, .functionCall name args, st =>
    match evalArgs O n args st with
    | .error e => .error e
    | .ok (argValues, st') =>
      if hasFunction name then
        match builtinCall O name argValues with
        | .error e => .error (.err e)
        | .ok v => .ok (v, st')
      else
        .error (.err (.undefinedFunction name))
  | n + 1, .binary left operator right, st =>
    match evaluateExpression O n left st with
    | .error e => .error e
    | .ok (leftVal, st') =>
      match evaluateExpression O n right st' with
      | .error e => .error e
      | .ok (rightVal, st'') =>
        match applyBinaryOperator O leftVal operator rightVal with
        | .error e => .error (.err e)
        | .ok v => .ok (v, st'')
  | n + 1, .unary operator operand, st =>
    match evaluateExpression O n operand st with
    | .error e => .error e
    | .ok (operandVal, st') =>
      match applyUnaryOperator O operator operandVal with
      | .error e => .error (.err e)
      | .ok v => .ok (v, st')
  | n + 1, .indexOp object idx, st =>
    match evaluateExpression O n object st with
    | .error e => .error e
    | .ok (objVal, st') =>
      match evaluateExpression O n idx st' with
      | .error e => .error e
      | .ok (idxVal, st'') =>
        match applyIndexOperator objVal idxVal with
        | .error e => .error (.err e)
        | .ok v => .ok (v, st'')
  | n + 1, .patternGenerator width height body, st =>
    match evaluateExpression O n width st with
    | .error e => .error e
    | .ok (wv, st') =>
      match wv.toNumber O with
      | .error e => .error (.err e)
      | .ok wn =>
        match evaluateExpression O n height st' with
        | .error e => .error e
        | .ok (hv, st'') =>
          match hv.toNumber O with
          | .error e => .error (.err e)
          | .ok hn => generatePatternFrame O n wn.toUnsigned hn.toUnsigned body st''
  | n + 1, .animatedGenerator width height timeVar body, st =>
    match evaluateExpression O n width st with
    | .error e => .error e
    | .ok (wv, st') =>
      match wv.toNumber O with
      | .error e => .error (.err e)
      | .ok wn =>
        match evaluateExpression O n height st' with
        | .error e => .error e
        | .ok (hv, st'') =>
          match hv.toNumber O with
          | .error e => .error (.err e)
          | .ok hn => generateAnimatedFrame O n wn.toUnsigned hn.toUnsigned timeVar body st''
  | n + 1, .cellularGenerator width height prevVar body, st =>
    match evaluateExpression O n width st with
    | .error e => .error e
    | .ok (wv, st') =>
      match wv.toNumber O with
      | .error e => .error (.err e)
      | .ok wn =>
        match evaluateExpression O n height st' with
        | .error e => .error e
        | .ok (hv, st'') =>
          match hv.toNumber O with
          | .error e => .error (.err e)
          | .ok hn => generateCellularFrame O n wn.toUnsigned hn.toUnsigned prevVar body st''
  | n + 1, .conditional condition thenExpr elseExpr, st =>
    match evaluateExpression O n condition st with
    | .error e => .error e
    | .ok (conditionVal, st') =>
      if conditionVal.isTruthy then
        evaluateExpression O n thenExpr st'
      else
        evaluateExpression O n elseExpr st'
termination_by structural n _ _ => n

/-- Argument/element evaluation (`args.iter().map(...).collect()`). -/
def evalArgs (O : FloatOracle) : Nat → List Expression → InterpState →
    Except RunErr (List Value × InterpState)
  | 0, _, _ => .error .fuel
  | _ + 1, [], st => .ok ([], st)
  | n + 1, e :: rest, st =>
    match evaluateExpression O n e st with
    | .error err => .error err
    | .ok (v, st') =>
      match evalArgs O n rest st' with
      | .error err => .error err
      | .ok (vs, st'') => .ok (v :: vs, st'')
termination_by structural n _ _ => n

/-- `Interpreter::generate_pattern_frame`. -/
def generatePatternFrame (O : FloatOracle) : Nat → Nat → Nat → List Statement →
    InterpState → Except RunErr (Value × InterpState)
  | 0, _, _, _, _ => .error .fuel
  | n + 1, width, height, body, st =>
    match genLoop O n (coords height width) [] body (Frame.blank width height) st with
    | .error e => .error e
    | .ok (frame, st') => .ok (.frame frame, st')
termination_by structural n _ _ _ _ => n

/-- `Interpreter::generate_animated_frame`: additionally binds the
user-chosen time variable to `current_time` in every pixel scope. -/
def generateAnimatedFrame (O : FloatOracle) : Nat → Nat → Nat → String →
    List Statement → InterpState → Except RunErr (Value × InterpState)
  | 0, _, _, _, _, _ => .error .fuel
  | n + 1, width, height, timeVar, body, st =>
    match genLoop O n (coords height width)
        [(timeVar, .number (.fin (GQ.ofNat st.currentTime)))] body
        (Frame.blank width height) st with
    | .error e => .error e
    | .ok (frame, st') => .ok (.frame frame, st')
termination_by structural n _ _ _ _ _ => n

/-- `Interpreter::generate_cellular_frame`: requires a Frame bound to the
user-chosen name in the environment at generator entry and rebinds a copy
of it in every pixel scope. -/
def generateCellularFrame (O : FloatOracle) : Nat → Nat → Nat → String →
    List Statement → InterpState → Except RunErr (Value × InterpState)
  | 0, _, _, _, _, _ => .error .fuel
  | n + 1, width, height, prevVar, body, st =>
    match st.environment.get prevVar with
    | .ok (.frame prevFrame) =>
      match genLoop O n (coords height width) [(prevVar, .frame prevFrame)] body
          (Frame.blank width height) st with
      | .error e => .error e
      | .ok (frame, st') => .ok (.frame frame, st')
    | _ => .error (.err (.runtimeError "Cellular automaton requires previous frame"))
termination_by structural n _ _ _ _ _ => n

/-- The shared pixel loop of the three generators: per pixel, install the
child scope, run the body, restore the generator's environment, write the
bit. -/
def genLoop (O : FloatOracle) : Nat → List (Nat × Nat) → List (String × Value) →
    List Statement → Frame → InterpState → Except RunErr (Frame × InterpState)
  | 0, _, _, _, _, _ => .error .fuel
  | _ + 1, [], _, _, frame, st => .ok (frame, st)
  | n + 1, (row, col) :: rest, extras, body, frame, st =>
    let oldEnv := st.environment
    match runPixelBody O n body { st with environment := childScope oldEnv row col extras } with
    | .error e => .error e
    | .ok (pixelValue, st') =>
      let restored := { st' with environment := oldEnv }
      match frame.setPixel row col pixelValue with
      | .error e => .error (.err e)
      | .ok frame' => genLoop O n rest extras body frame' restored
termination_by structural n _ _ _ _ _ => n

/-- The body loop of one pixel: first escaping value gives the pixel's
truthiness; a body with no escaping value leaves the pixel off. -/
def runPixelBody (O : FloatOracle) : Nat → List Statement → InterpState →
    Except RunErr (Bool × InterpState)
  | 0, _, _ => .error .fuel
  | _ + 1, [], st => .ok (false, st)
  | n + 1, stmt :: rest, st =>
    match executeStatement O n stmt st with
    | .error e => .error e
    | .ok (some returnVal, st') => .ok (returnVal.isTruthy, st')
    | .ok (none, st') => runPixelBody O n rest st'
termination_by structural n _ _ => n

/-- `Interpreter::handle_animation_function`: re-evaluate the arguments,
then mutate animation state and output frames. -/
def handleAnimationFunction (O : FloatOracle) : Nat → String → List Expression →
    InterpState → Except RunErr InterpState
  | 0, _, _, _ => .error .fuel
  | n + 1, funcName, args, st =>
    match evalArgs O n args st with
    | .error e => .error e
    | .ok (argValues, st') =>
      if funcName = "play" then
        match argValues with
        | .frames frames :: _ =>
          .ok { st' with
                animationState := some (AnimationState.new frames false 100)
                outputFrames := frames }
        | _ => .ok st'
      else if funcName = "loop" then
        match argValues with
        | .frames frames :: _ =>
          .ok { st' with
                animationState := some (AnimationState.new frames true 100)
                outputFrames := frames }
        | _ => .ok st'
      else if funcName = "play_speed" then
        match argValues with
        | .frames frames :: .number ms :: _ =>
          .ok { st' with
                animationState := some (AnimationState.new frames false ms.toUnsigned)
                outputFrames := frames }
        | _ => .ok st'
      else
        .ok st'
termination_by structural n _ _ _ => n

end

/-- The statement loop shared by `Interpreter::execute`,
`handle_click_event` and `handle_idle_event`: run each statement in
order, discarding escaping values, stopping at the first error. -/
def runStatements (O : FloatOracle) : Nat → List Statement → InterpState →
    Except RunErr InterpState
  | 0, _, _ => .error .fuel
  | _ + 1, [], st => .ok st
  | n + 1, stmt :: rest, st =>
    match executeStatement O n stmt st with
    | .error e => .error e
    | .ok (_, st') => runStatements O n rest st'

/-- `Interpreter::execute`. -/
def execute (O : FloatOracle) (n : Nat) (program : Program) (st : InterpState) :
    Except RunErr InterpState :=
  runStatements O n program.statements st

/-- `Interpreter::handle_click_event`. -/
def handleClickEvent (O : FloatOracle) (n : Nat) (st : InterpState) :
    Except RunErr InterpState :=
  match st.eventHandlers.lookup "clicked" with
  | some statements => runStatements O n statements st
  | none => .ok st

/-- `Interpreter::handle_idle_event`. -/
def handleIdleEvent (O : FloatOracle) (n : Nat) (idleTime : Nat) (st : InterpState) :
    Except RunErr InterpState :=
  match st.eventHandlers.lookup ("idle_" ++ toString idleTime) with
  | some statements => runStatements O n statements st
  | none => .ok st

end RM

namespace RM

/-- `lexer.rs`: the token set of the richer variant (keyword constructors
carry a `kw` prefix purely because of Lean keyword clashes). -/
inductive Token
  | number (n : GF)
  | string (s : String)
  | identifier (s : String)
  | kwFrame
  | kwFrames
  | kwNum
  | kwText
  | kwPattern
  | kwAnimate
  | kwEvolve
  | kwUsing
  | kwFrom
  | kwIf
  | kwThen
  | kwElsif
  | kwElse
  | kwEnd
  | kwRepeat
  | kwDo
  | kwTimes
  | kwWhen
  | kwClicked
  | kwIdle
  | kwPlay
  | kwLoop
  | kwStop
  | kwReturn
  | kwAnd
  | kwOr
  | kwNot
  | plus
  | minus
  | star
  | slash
  | percent
  | caret
  | equal
  | equalEqual
  | notEqual
  | less
  | greater
  | lessEqual
  | greaterEqual
  | leftParen
  | rightParen
  | leftBracket
  | rightBracket
  | leftBrace
  | rightBrace
  | comma
  | semicolon
  | colon
  | newline
  | eof
  deriving Repr

/-- Injective encoding of a token as a tag plus its (defaulted) payloads.
Token equality is decided through this encoding: the derived instance
would be a match quadratic in the 54 constructors. -/
def Token.enc : Token → Nat × String × GF
  | .number n => (0, "", n)
  | .string s => (1, s, .fin 0)
  | .identifier s => (2, s, .fin 0)
  | .kwFrame => (3, "", .fin 0)
  | .kwFrames => (4, "", .fin 0)
  | .kwNum => (5, "", .fin 0)
  | .kwText => (6, "", .fin 0)
  | .kwPattern => (7, "", .fin 0)
  | .kwAnimate => (8, "", .fin 0)
  | .kwEvolve => (9, "", .fin 0)
  | .kwUsing => (10, "", .fin 0)
  | .kwFrom => (11, "", .fin 0)
  | .kwIf => (12, "", .fin 0)
  | .kwThen => (13, "", .fin 0)
  | .kwElsif => (14, "", .fin 0)
  | .kwElse => (15, "", .fin 0)
  | .kwEnd => (16, "", .fin 0)
  | .kwRepeat => (17, "", .fin 0)
  | .kwDo => (18, "", .fin 0)
  | .kwTimes => (19, "", .fin 0)
  | .kwWhen => (20, "", .fin 0)
  | .kwClicked => (21, "", .fin 0)
  | .kwIdle => (22, "", .fin 0)
  | .kwPlay => (23, "", .fin 0)
  | .kwLoop => (24, "", .fin 0)
  | .kwStop => (25, "", .fin 0)
  | .kwReturn => (26, "", .fin 0)
  | .kwAnd => (27, "", .fin 0)
  | .kwOr => (28, "", .fin 0)
  | .kwNot => (29, "", .fin 0)
  | .plus => (30, "", .fin 0)
  | .minus => (31, "", .fin 0)
  | .star => (32, "", .fin 0)
  | .slash => (33, "", .fin 0)
  | .percent => (34, "", .fin 0)
  | .caret => (35, "", .fin 0)
  | .equal => (36, "", .fin 0)
  | .equalEqual => (37, "", .fin 0)
  | .notEqual => (38, "", .fin 0)
  | .less => (39, "", .fin 0)
  | .greater => (40, "", .fin 0)
  | .lessEqual => (41, "", .fin 0)
  | .greaterEqual => (42, "", .fin 0)
  | .leftParen => (43, "", .fin 0)
  | .rightParen => (44, "", .fin 0)
  | .leftBracket => (45, "", .fin 0)
  | .rightBracket => (46, "", .fin 0)
  | .leftBrace => (47, "", .fin 0)
  | .rightBrace => (48, "", .fin 0)
  | .comma => (49, "", .fin 0)
  | .semicolon => (50, "", .fin 0)
  | .colon => (51, "", .fin 0)
  | .newline => (52, "", .fin 0)
  | .eof => (53, "", .fin 0)

/-- Left inverse of `Token.enc`. -/
def Token.dec : Nat × String × GF → Option Token
  | (0, _, n) => some (.number n)
  | (1, s, _) => some (.string s)
  | (2, s, _) => some (.identifier s)
  | (3, _, _) => some .kwFrame
  | (4, _, _) => some .kwFrames
  | (5, _, _) => some .kwNum
  | (6, _, _) => some .kwText
  | (7, _, _) => some .kwPattern
  | (8, _, _) => some .kwAnimate
  | (9, _, _) => some .kwEvolve
  | (10, _, _) => some .kwUsing
  | (11, _, _) => some .kwFrom
  | (12, _, _) => some .kwIf
  | (13, _, _) => some .kwThen
  | (14, _, _) => some .kwElsif
  | (15, _, _) => some .kwElse
  | (16, _, _) => some .kwEnd
  | (17, _, _) => some .kwRepeat
  | (18, _, _) => some .kwDo
  | (19, _, _) => some .kwTimes
  | (20, _, _) => some .kwWhen
  | (21, _, _) => some .kwClicked
  | (22, _, _) => some .kwIdle
  | (23, _, _) => some .kwPlay
  | (24, _, _) => some .kwLoop
  | (25, _, _) => some .kwStop
  | (26, _, _) => some .kwReturn
  | (27, _, _) => some .kwAnd
  | (28, _, _) => some .kwOr
  | (29, _, _) => some .kwNot
  | (30, _, _) => some .plus
  | (31, _, _) => some .minus
  | (32, _, _) => some .star
  | (33, _, _) => some .slash
  | (34, _, _) => some .percent
  | (35, _, _) => some .caret
  | (36, _, _) => some .equal
  | (37, _, _) => some .equalEqual
  | (38, _, _) => some .notEqual
  | (39, _, _) => some .less
  | (40, _, _) => some .greater
  | (41, _, _) => some .lessEqual
  | (42, _, _) => some .greaterEqual
  | (43, _, _) => some .leftParen
  | (44, _, _) => some .rightParen
  | (45, _, _) => some .leftBracket
  | (46, _, _) => some .rightBracket
  | (47, _, _) => some .leftBrace
  | (48, _, _) => some .rightBrace
  | (49, _, _) => some .comma
  | (50, _, _) => some .semicolon
  | (51, _, _) => some .colon
  | (52, _, _) => some .newline
  | (53, _, _) => some .eof
  | _ => none

theorem Token.dec_enc (t : Token) : Token.dec t.enc = some t := by
  cases t <;> rfl

instance : DecidableEq Token := fun a b =>
  decidable_of_iff (Token.enc a = Token.enc b)
    ⟨fun h => Option.some.inj
        (by rw [← Token.dec_enc a, ← Token.dec_enc b, h]),
     fun h => congrArg Token.enc h⟩

/-- `impl fmt::Display for Token`.  A number token prints via `f64`'s
`Display`; integral values print exactly (`"3"`), non-integral values are
shown as a fraction (no claim exercises such a message). -/
def Token.display : Token → String
  | .number (.fin q) => if q.den = 1 then toString q.num else toString q.num ++ "/" ++ toString q.den
  | .number .nan => "NaN"
  | .string s => "\"" ++ s ++ "\""
  | .identifier s => s
  | .kwFrame => "frame"
  | .kwFrames => "frames"
  | .kwNum => "num"
  | .kwText => "text"
  | .kwPattern => "pattern"
  | .kwAnimate => "animate"
  | .kwEvolve => "evolve"
  | .kwUsing => "using"
  | .kwFrom => "from"
  | .kwIf => "if"
  | .kwThen => "then"
  | .kwElsif => "elsif"
  | .kwElse => "else"
  | .kwEnd => "end"
  | .kwRepeat => "repeat"
  | .kwDo => "do"
  | .kwTimes => "times"
  | .kwWhen => "when"
  | .kwClicked => "clicked"
  | .kwIdle => "idle"
  | .kwPlay => "play"
  | .kwLoop => "loop"
  | .kwStop => "stop"
  | .kwReturn => "return"
  | .kwAnd => "and"
  | .kwOr => "or"
  | .kwNot => "not"
  | .plus => "+"
  | .minus => "-"
  | .star => "*"
  | .slash => "/"
  | .percent => "%"
  | .caret => "^"
  | .equal => "="
  | .equalEqual => "=="
  | .notEqual => "!="
  | .less => "<"
  | .greater => ">"
  | .lessEqual => "<="
  | .greaterEqual => ">="
  | .leftParen => "("
  | .rightParen => ")"
  | .leftBracket => "["
  | .rightBracket => "]"
  | .leftBrace => "\x7b"
  | .rightBrace => "\x7d"
  | .comma => ","
  | .semicolon => ";"
  | .colon => ":"
  | .newline => "\\n"
  | .eof => "EOF"

/-- `lexer.rs`: lexer state (`input` as a char sequence plus 0-based
position and 1-based line/column). -/
structure Lexer where
  input : List Char
  position : Nat
  line : Nat
  column : Nat

/-- `Lexer::new`. -/
def Lexer.new (source : String) : Lexer :=
  { input := source.toList, position := 0, line := 1, column := 1 }

/-- `Lexer::is_at_end`. -/
def Lexer.isAtEnd (lx : Lexer) : Bool := lx.position ≥ lx.input.length

/-- `Lexer::peek` (`'\0'` at the end). -/
def Lexer.peek (lx : Lexer) : Char := lx.input.getD lx.position '\x00'

/-- `Lexer::peek_next`. -/
def Lexer.peekNext (lx : Lexer) : Char := lx.input.getD (lx.position + 1) '\x00'

/-- `Lexer::advance`: return the current char and step past it (`'\0'`
and no movement at the end). -/
def Lexer.advance (lx : Lexer) : Char × Lexer :=
  if lx.isAtEnd then ('\x00', lx)
  else (lx.peek, { lx with position := lx.position + 1, column := lx.column + 1 })

/-- The `skip_whitespace` loop (space, carriage return, tab); bounded by
the remaining input, which the loop consumes one char per step. -/
def skipWhitespaceAux : Nat → Lexer → Lexer
  | 0, lx => lx
  | n + 1, lx =>
    if lx.isAtEnd then lx
    else
      match lx.peek with
      | ' ' | '\r' | '\t' => skipWhitespaceAux n (lx.advance).2
      | _ => lx

/-- `Lexer::skip_whitespace`. -/
def Lexer.skipWhitespace (lx : Lexer) : Lexer :=
  skipWhitespaceAux (lx.input.length - lx.position) lx

/-- The comment-skipping loop of `next_token` (`//` to end of line). -/
def skipCommentAux : Nat → Lexer → Lexer
  | 0, lx => lx
  | n + 1, lx =>
    if lx.peek ≠ '\n' ∧ !lx.isAtEnd then skipCommentAux n (lx.advance).2
    else lx

/-- The digit-collecting loops of `number_literal`. -/
def digitsAux : Nat → Lexer → List Char × Lexer
  | 0, lx => ([], lx)
  | n + 1, lx =>
    if lx.peek.isDigit then
      let (c, lx') := lx.advance
      let (rest, lx'') := digitsAux n lx'
      (c :: rest, lx'')
    else ([], lx)

def Lexer.digits (lx : Lexer) : List Char × Lexer :=
  digitsAux (lx.input.length - lx.position) lx

/-- Decimal digit-string value. -/
def digitsToNat (ds : List Char) : Nat :=
  ds.foldl (fun acc c => 10 * acc + (c.toNat - '0'.toNat)) 0

/-- The value of `<intDigits>.<fracDigits>` as an exact fraction.  The
source routes the collected digit string through `str::parse::<f64>`,
which cannot fail on such strings; its rounding to the nearest `f64` is
abstracted (exact for all literals in the claims). -/
def mkDecimal (intDigits fracDigits : List Char) : GQ :=
  ⟨digitsToNat intDigits * 10 ^ fracDigits.length + digitsToNat fracDigits,
   10 ^ fracDigits.length⟩

/-- `Lexer::number_literal` (the `'.'` is only consumed when a digit
follows). -/
def Lexer.numberLiteral (firstDigit : Char) (lx : Lexer) : Token × Lexer :=
  let (ds, lx1) := lx.digits
  if lx1.peek = '.' ∧ lx1.peekNext.isDigit then
    let lx2 := (lx1.advance).2
    let (fs, lx3) := lx2.digits
    (.number (.fin (mkDecimal (firstDigit :: ds) fs)), lx3)
  else
    (.number (.fin (mkDecimal (firstDigit :: ds) [])), lx1)

/-- The character-collecting loop of `string_literal`. -/
def stringLitAux : Nat → Lexer → List Char → Except GizmoError (List Char × Lexer)
  | 0, lx, acc => .ok (acc, lx)
  | n + 1, lx, acc =>
    if lx.peek ≠ '"' ∧ !lx.isAtEnd then
      let lx0 := if lx.peek = '\n' then { lx with line := lx.line + 1, column := 1 } else lx
      let (c, lx1) := lx0.advance
      if c = '\\' then
        let (e, lx2) := lx1.advance
        match e with
        | 'n' => stringLitAux n lx2 (acc ++ ['\n'])
        | 't' => stringLitAux n lx2 (acc ++ ['\t'])
        | 'r' => stringLitAux n lx2 (acc ++ ['\r'])
        | '\\' => stringLitAux n lx2 (acc ++ ['\\'])
        | '"' => stringLitAux n lx2 (acc ++ ['"'])
        | other =>
          .error (.lexError
            ("Invalid escape sequence '\\" ++ String.singleton other ++ "' at line " ++
             toString lx2.line ++ ", column " ++ toString lx2.column))
      else
        stringLitAux n lx1 (acc ++ [c])
    else
      .ok (acc, lx)

/-- `Lexer::string_literal` (opening quote already consumed). -/
def Lexer.stringLiteral (lx : Lexer) : Except GizmoError (Token × Lexer) :=
  match stringLitAux (lx.input.length - lx.position) lx [] with
  | .error e => .error e
  | .ok (cs, lx') =>
    if lx'.isAtEnd then
      .error (.lexError
        ("Unterminated string at line " ++ toString lx'.line ++ ", column " ++
         toString lx'.column))
    else
      .ok (.string (String.mk cs), (lx'.advance).2)

/-- The identifier-collecting loop of `identifier_or_keyword`. -/
def identAux : Nat → Lexer → List Char → List Char × Lexer
  | 0, lx, acc => (acc, lx)
  | n + 1, lx, acc =>
    if lx.peek.isAlphanum ∨ lx.peek = '_' then
      let (c, lx') := lx.advance
      identAux n lx' (acc ++ [c])
    else (acc, lx)

/-- The exact keyword table of `identifier_or_keyword`. -/
def keywordOrIdentifier (value : String) : Token :=
  match value with
  | "frame" => .kwFrame
  | "frames" => .kwFrames
  | "num" => .kwNum
  | "text" => .kwText
  | "pattern" => .kwPattern
  | "animate" => .kwAnimate
  | "evolve" => .kwEvolve
  | "using" => .kwUsing
  | "from" => .kwFrom
  | "if" => .kwIf
  | "then" => .kwThen
  | "elsif" => .kwElsif
  | "else" => .kwElse
  | "end" => .kwEnd
  | "repeat" => .kwRepeat
  | "do" => .kwDo
  | "times" => .kwTimes
  | "when" => .kwWhen
  | "clicked" => .kwClicked
  | "idle" => .kwIdle
  | "play" => .kwPlay
  | "loop" => .kwLoop
  | "stop" => .kwStop
  | "return" => .kwReturn
  | "and" => .kwAnd
  | "or" => .kwOr
  | "not" => .kwNot
  | _ => .identifier value

/-- `Lexer::identifier_or_keyword` (first char already consumed). -/
def Lexer.identifierOrKeyword (firstChar : Char) (lx : Lexer) : Token × Lexer :=
  let (cs, lx') := identAux (lx.input.length - lx.position) lx [firstChar]
  (keywordOrIdentifier (String.mk cs), lx')

/-- `Lexer::next_token`.  The fuel only feeds the self-recursion after a
`//` comment. -/
def nextToken : Nat → Lexer → Except RunErr (Token × Lexer)
  | 0, _ => .error .fuel
  | n + 1, lx0 =>
    let lx := lx0.skipWhitespace
    if lx.isAtEnd then .ok (.eof, lx)
    else
      let (c, lx1) := lx.advance
      match c with
      | '\n' => .ok (.newline, { lx1 with line := lx1.line + 1, column := 1 })
      | '(' => .ok (.leftParen, lx1)
      | ')' => .ok (.rightParen, lx1)
      | '[' => .ok (.leftBracket, lx1)
      | ']' => .ok (.rightBracket, lx1)
      | '{' => .ok (.leftBrace, lx1)
      | '}' => .ok (.rightBrace, lx1)
      | ',' => .ok (.comma, lx1)
      | ';' => .ok (.semicolon, lx1)
      | ':' => .ok (.colon, lx1)
      | '+' => .ok (.plus, lx1)
      | '-' => .ok (.minus, lx1)
      | '*' => .ok (.star, lx1)
      | '/' =>
        if lx1.peek = '/' then
          nextToken n (skipCommentAux (lx1.input.length - lx1.position) lx1)
        else .ok (.slash, lx1)
      | '%' => .ok (.percent, lx1)
      | '^' => .ok (.caret, lx1)
      | '=' =>
        if lx1.peek = '=' then .ok (.equalEqual, (lx1.advance).2)
        else .ok (.equal, lx1)
      | '!' =>
        if lx1.peek = '=' then .ok (.notEqual, (lx1.advance).2)
        else
          .error (.err (.lexError
            ("Unexpected character '!' at line " ++ toString lx1.line ++ ", column " ++
             toString lx1.column)))
      | '<' =>
        if lx1.peek = '=' then .ok (.lessEqual, (lx1.advance).2)
        else .ok (.less, lx1)
      | '>' =>
        if lx1.peek = '=' then .ok (.greaterEqual, (lx1.advance).2)
        else .ok (.greater, lx1)
      | '"' =>
        match lx1.stringLiteral with
        | .error e => .error (.err e)
        | .ok r => .ok r
      | other =>
        if other.isDigit then .ok (lx1.numberLiteral other)
        else if other.isAlpha ∨ other = '_' then .ok (lx1.identifierOrKeyword other)
        else
          .error (.err (.lexError
            ("Unexpected character '" ++ String.singleton other ++ "' at line " ++
             toString lx1.line ++ ", column " ++ toString lx1.column)))

/-- The `tokenize` loop: collect tokens, pushing the final EOF. -/
def tokenizeAux : Nat → Lexer → Except RunErr (List Token)
  | 0, _ => .error .fuel
  | n + 1, lx =>
    match nextToken n lx with
    | .error e => .error e
    | .ok (t, lx') =>
      if t = .eof then .ok [Token.eof]
      else
        match tokenizeAux n lx' with
        | .error e => .error e
        | .ok rest => .ok (t :: rest)

/-- `Lexer::tokenize` on a source string (the fuel `2·|source| + 4`
dominates the loop, which consumes at least one char per token). -/
def tokenize (source : String) : Except RunErr (List Token) :=
  tokenizeAux (2 * source.length + 4) (Lexer.new source)

end RM

namespace RM

/-- `parser.rs`: parser state (token vector plus cursor). -/
structure Parser where
  tokens : List Token
  current : Nat

/-- `Parser::new`. -/
def Parser.new (tokens : List Token) : Parser := ⟨tokens, 0⟩

/-- `Parser::peek` (EOF beyond the end). -/
def Parser.peek (p : Parser) : Token := p.tokens.getD p.current .eof

/-- `Parser::is_at_end`. -/
def Parser.isAtEnd (p : Parser) : Bool :=
  p.current ≥ p.tokens.length ∨ p.peek = .eof

/-- `Parser::previous` (EOF when nothing has been consumed). -/
def Parser.previous (p : Parser) : Token :=
  if p.current = 0 then .eof else p.tokens.getD (p.current - 1) .eof

/-- `Parser::advance`: step the cursor unless at the end, returning the
token just passed. -/
def Parser.advanceP (p : Parser) : Token × Parser :=
  let p' := if !p.isAtEnd then { p with current := p.current + 1 } else p
  (p'.previous, p')

/-- The `skip_newlines` loop, bounded by the remaining token count. -/
def skipNLAux : Nat → Parser → Parser
  | 0, p => p
  | n + 1, p =>
    if p.peek = .newline then skipNLAux n (p.advanceP).2 else p

/-- `Parser::skip_newlines`. -/
def Parser.skipNewlines (p : Parser) : Parser :=
  skipNLAux (p.tokens.length - p.current) p

/-- An `expected X, found Y` parse failure (`msg` is the full
"Expected …" prefix as written in the source format string). -/
def parseErr (msg : String) (found : Token) : RunErr :=
  .err (.parseError (msg ++ ", found '" ++ found.display ++ "'"))

mutual

/-- `Parser::statement`: dispatch on the current token. -/
def statementP (O' : Unit) : Nat → Parser → Except RunErr (Statement × Parser)
  | 0, _ => .error .fuel
  | n + 1, p =>
    match p.peek with
    | .kwFrame => variableDeclarationP O' n p
    | .kwFrames => variableDeclarationP O' n p
    | .kwNum => variableDeclarationP O' n p
    | .kwText => variableDeclarationP O' n p
    | .kwIf => ifStatementP O' n p
    | .kwRepeat => repeatStatementP O' n p
    | .kwWhen => whenStatementP O' n p
    | .kwReturn => returnStatementP O' n p
    | _ => expressionStatementP O' n p
termination_by structural n _ => n

/-- `Parser::variable_declaration`. -/
def variableDeclarationP (O' : Unit) : Nat → Parser → Except RunErr (Statement × Parser)
  | 0, _ => .error .fuel
  | n + 1, p =>
    let (t, p1) := p.advanceP
    let varType? : Option VariableType :=
      match t with
      | .kwFrame => some .frame
      | .kwFrames => some .frames
      | .kwNum => some .num
      | .kwText => some .text
      | _ => none
    match varType? with
    | none => .error (parseErr "Expected variable type" t)
    | some varType =>
      let (t2, p2) := p1.advanceP
      match t2 with
      | .identifier name =>
        if p2.peek ≠ .equal then .error (parseErr "Expected '='" p2.peek)
        else
          let p3 := (p2.advanceP).2
          match expressionP O' n p3 with
          | .error e => .error e
          | .ok (value, p4) =>
            let p5 := if p4.peek = .semicolon then (p4.advanceP).2 else p4
            .ok (.variableDeclaration varType name value, p5.skipNewlines)
      | _ => .error (parseErr "Expected identifier" t2)
termination_by structural n _ => n

/-- `Parser::if_statement`. -/
def ifStatementP (O' : Unit) : Nat → Parser → Except RunErr (Statement × Parser)
  | 0, _ => .error .fuel
  | n + 1, p =>
    let p0 := (p.advanceP).2
    match expressionP O' n p0 with
    | .error e => .error e
    | .ok (condition, p1) =>
      if p1.peek ≠ .kwThen then .error (parseErr "Expected 'then'" p1.peek)
      else
        let p2 := ((p1.advanceP).2).skipNewlines
        match blockUntilP O' n [.kwElsif, .kwElse, .kwEnd] p2 with
        | .error e => .error e
        | .ok (thenBlock, p3) =>
          match elsifLoopP O' n [] p3 with
          | .error e => .error e
          | .ok (elsifBlocks, p4) =>
            match
              (if p4.peek = .kwElse then
                let p5 := ((p4.advanceP).2).skipNewlines
                match blockUntilP O' n [.kwEnd] p5 with
                | .error e => .error e
                | .ok (elseBody, p6) => .ok (some elseBody, p6)
              else
                .ok (none, p4) : Except RunErr (Option (List Statement) × Parser)) with
            | .error e => .error e
            | .ok (elseBlock, p7) =>
              if p7.peek ≠ .kwEnd then .error (parseErr "Expected 'end'" p7.peek)
              else
                let p8 := (p7.advanceP).2
                let p9 := if p8.peek = .semicolon then (p8.advanceP).2 else p8
                .ok (.ifStatement condition thenBlock elsifBlocks elseBlock, p9.skipNewlines)
termination_by structural n _ => n

/-- The elsif-collecting loop of `if_statement`. -/
def elsifLoopP (O' : Unit) : Nat → List (Expression × List Statement) → Parser →
    Except RunErr (List (Expression × List Statement) × Parser)
  | 0, _, _ => .error .fuel
  | n + 1, acc, p =>
    if p.peek = .kwElsif then
      let p0 := (p.advanceP).2
      match expressionP O' n p0 with
      | .error e => .error e
      | .ok (elsifCondition, p1) =>
        if p1.peek ≠ .kwThen then .error (parseErr "Expected 'then'" p1.peek)
        else
          let p2 := ((p1.advanceP).2).skipNewlines
          match blockUntilP O' n [.kwElsif, .kwElse, .kwEnd] p2 with
          | .error e => .error e
          | .ok (elsifBody, p3) => elsifLoopP O' n (acc ++ [(elsifCondition, elsifBody)]) p3
    else
      .ok (acc, p)
termination_by structural n _ => n

/-- `Parser::repeat_statement`. -/
def repeatStatementP (O' : Unit) : Nat → Parser → Except RunErr (Statement × Parser)
  | 0, _ => .error .fuel
  | n + 1, p =>
    let p0 := (p.advanceP).2
    match expressionP O' n p0 with
    | .error e => .error e
    | .ok (times, p1) =>
      if p1.peek ≠ .kwTimes then .error (parseErr "Expected 'times'" p1.peek)
      else
        let p2 := (p1.advanceP).2
        if p2.peek ≠ .kwDo then .error (parseErr "Expected 'do'" p2.peek)
        else
          let p3 := ((p2.advanceP).2).skipNewlines
          match blockUntilP O' n [.kwEnd] p3 with
          | .error e => .error e
          | .ok (body, p4) =>
            if p4.peek ≠ .kwEnd then .error (parseErr "Expected 'end'" p4.peek)
            else
              let p5 := (p4.advanceP).2
              let p6 := if p5.peek = .semicolon then (p5.advanceP).2 else p5
              .ok (.repeatStatement times body, p6.skipNewlines)
termination_by structural n _ => n

/-- `Parser::when_statement`. -/
def whenStatementP (O' : Unit) : Nat → Parser → Except RunErr (Statement × Parser)
  | 0, _ => .error .fuel
  | n + 1, p =>
    let p0 := (p.advanceP).2
    match
      (match p0.peek with
      | .kwClicked => .ok (Event.clicked, (p0.advanceP).2)
      | .kwIdle =>
        let p1 := (p0.advanceP).2
        if p1.peek ≠ .greater then .error (parseErr "Expected '>' after 'idle'" p1.peek)
        else
          let p2 := (p1.advanceP).2
          match expressionP O' n p2 with
          | .error e => .error e
          | .ok (time, p3) => .ok (Event.idle time, p3)
      | other => .error (parseErr "Expected event type" other) : Except RunErr (Event × Parser)) with
    | .error e => .error e
    | .ok (event, p4) =>
      if p4.peek ≠ .kwDo then .error (parseErr "Expected 'do'" p4.peek)
      else
        let p5 := ((p4.advanceP).2).skipNewlines
        match blockUntilP O' n [.kwEnd] p5 with
        | .error e => .error e
        | .ok (body, p6) =>
          if p6.peek ≠ .kwEnd then .error (parseErr "Expected 'end'" p6.peek)
          else
            let p7 := (p6.advanceP).2
            let p8 := if p7.peek = .semicolon then (p7.advanceP).2 else p7
            .ok (.whenStatement event body, p8.skipNewlines)
termination_by structural n _ => n

/-- `Parser::return_statement`. -/
def returnStatementP (O' : Unit) : Nat → Parser → Except RunErr (Statement × Parser)
  | 0, _ => .error .fuel
  | n + 1, p =>
    let p0 := (p.advanceP).2
    match expressionP O' n p0 with
    | .error e => .error e
    | .ok (value, p1) =>
      let p2 := if p1.peek = .semicolon then (p1.advanceP).2 else p1
      .ok (.returnStatement value, p2.skipNewlines)
termination_by structural n _ => n

/-- `Parser::expression_statement`. -/
def expressionStatementP (O' : Unit) : Nat → Parser → Except RunErr (Statement × Parser)
  | 0, _ => .error .fuel
  | n + 1, p =>
    match expressionP O' n p with
    | .error e => .error e
    | .ok (expr, p1) =>
      let p2 := if p1.peek = .semicolon then (p1.advanceP).2 else p1
      .ok (.expressionStatement expr, p2.skipNewlines)
termination_by structural n _ => n

/-- `Parser::block_until`: consume statements (skipping newlines) until a
terminator or the end of input. -/
def blockUntilP (O' : Unit) : Nat → List Token → Parser →
    Except RunErr (List Statement × Parser)
  | 0, _, _ => .error .fuel
  | n + 1, terminators, p =>
    if !p.isAtEnd ∧ !(terminators.contains p.peek) then
      if p.peek = .newline then blockUntilP O' n terminators (p.advanceP).2
      else
        match statementP O' n p with
        | .error e => .error e
        | .ok (s, p1) =>
          match blockUntilP O' n terminators p1 with
          | .error e => .error e
          | .ok (ss, p2) => .ok (s :: ss, p2)
    else
      .ok ([], p)
termination_by structural n _ => n

/-- `Parser::expression` (lowest precedence is logical-or). -/
def expressionP (O' : Unit) : Nat → Parser → Except RunErr (Expression × Parser)
  | 0, _ => .error .fuel
  | n + 1, p => logicalOrP O' n p
termination_by structural n _ => n

/-- `Parser::logical_or`. -/
def logicalOrP (O' : Unit) : Nat → Parser → Except RunErr (Expression × Parser)
  | 0, _ => .error .fuel
  | n + 1, p =>
    match logicalAndP O' n p with
    | .error e => .error e
    | .ok (expr, p1) => orLoopP O' n expr p1
termination_by structural n _ => n

def orLoopP (O' : Unit) : Nat → Expression → Parser → Except RunErr (Expression × Parser)
  | 0, _, _ => .error .fuel
  | n + 1, expr, p =>
    if p.peek = .kwOr then
      let p1 := (p.advanceP).2
      match logicalAndP O' n p1 with
      | .error e => .error e
      | .ok (right, p2) => orLoopP O' n (.binary expr .or right) p2
    else
      .ok (expr, p)
termination_by structural n _ => n

/-- `Parser::logical_and`. -/
def logicalAndP (O' : Unit) : Nat → Parser → Except RunErr (Expression × Parser)
  | 0, _ => .error .fuel
  | n + 1, p =>
    match equalityP O' n p with
    | .error e => .error e
    | .ok (expr, p1) => andLoopP O' n expr p1
termination_by structural n _ => n

def andLoopP (O' : Unit) : Nat → Expression → Parser → Except RunErr (Expression × Parser)
  | 0, _, _ => .error .fuel
  | n + 1, expr, p =>
    if p.peek = .kwAnd then
      let p1 := (p.advanceP).2
      match equalityP O' n p1 with
      | .error e => .error e
      | .ok (right, p2) => andLoopP O' n (.binary expr .and right) p2
    else
      .ok (expr, p)
termination_by structural n _ => n

/-- `Parser::equality`. -/
def equalityP (O' : Unit) : Nat → Parser → Except RunErr (Expression × Parser)
  | 0, _ => .error .fuel
  | n + 1, p =>
    match comparisonP O' n p with
    | .error e => .error e
    | .ok (expr, p1) => eqLoopP O' n expr p1
termination_by structural n _ => n

def eqLoopP (O' : Unit) : Nat → Expression → Parser → Except RunErr (Expression × Parser)
  | 0, _, _ => .error .fuel
  | n + 1, expr, p =>
    match p.peek with
    | .equalEqual =>
      let p1 := (p.advanceP).2
      match comparisonP O' n p1 with
      | .error e => .error e
      | .ok (right, p2) => eqLoopP O' n (.binary expr .equal right) p2
    | .notEqual =>
      let p1 := (p.advanceP).2
      match comparisonP O' n p1 with
      | .error e => .error e
      | .ok (right, p2) => eqLoopP O' n (.binary expr .notEqual right) p2
    | _ => .ok (expr, p)
termination_by structural n _ => n

/-- `Parser::comparison`. -/
def comparisonP (O' : Unit) : Nat → Parser → Except RunErr (Expression × Parser)
  | 0, _ => .error .fuel
  | n + 1, p =>
    match termP O' n p with
    | .error e => .error e
    | .ok (expr, p1) => cmpLoopP O' n expr p1
termination_by structural n _ => n

def cmpLoopP (O' : Unit) : Nat → Expression → Parser → Except RunErr (Expression × Parser)
  | 0, _, _ => .error .fuel
  | n + 1, expr, p =>
    match p.peek with
    | .greater =>
      let p1 := (p.advanceP).2
      match termP O' n p1 with
      | .error e => .error e
      | .ok (right, p2) => cmpLoopP O' n (.binary expr .greater right) p2
    | .greaterEqual =>
      let p1 := (p.advanceP).2
      match termP O' n p1 with
      | .error e => .error e
      | .ok (right, p2) => cmpLoopP O' n (.binary expr .greaterEqual right) p2
    | .less =>
      let p1 := (p.advanceP).2
      match termP O' n p1 with
      | .error e => .error e
      | .ok (right, p2) => cmpLoopP O' n (.binary expr .less right) p2
    | .lessEqual =>
      let p1 := (p.advanceP).2
      match termP O' n p1 with
      | .error e => .error e
      | .ok (right, p2) => cmpLoopP O' n (.binary expr .lessEqual right) p2
    | _ => .ok (expr, p)
termination_by structural n _ => n

/-- `Parser::term` (additive). -/
def termP (O' : Unit) : Nat → Parser → Except RunErr (Expression × Parser)
  | 0, _ => .error .fuel
  | n + 1, p =>
    match factorP O' n p with
    | .error e => .error e
    | .ok (expr, p1) => termLoopP O' n expr p1
termination_by structural n _ => n

def termLoopP (O' : Unit) : Nat → Expression → Parser → Except RunErr (Expression × Parser)
  | 0, _, _ => .error .fuel
  | n + 1, expr, p =>
    match p.peek with
    | .plus =>
      let p1 := (p.advanceP).2
      match factorP O' n p1 with
      | .error e => .error e
      | .ok (right, p2) => termLoopP O' n (.binary expr .add right) p2
    | .minus =>
      let p1 := (p.advanceP).2
      match factorP O' n p1 with
      | .error e => .error e
      | .ok (right, p2) => termLoopP O' n (.binary expr .subtract right) p2
    | _ => .ok (expr, p)
termination_by structural n _ => n

/-- `Parser::factor` (multiplicative). -/
def factorP (O' : Unit) : Nat → Parser → Except RunErr (Expression × Parser)
  | 0, _ => .error .fuel
  | n + 1, p =>
    match powerP O' n p with
    | .error e => .error e
    | .ok (expr, p1) => factorLoopP O' n expr p1
termination_by structural n _ => n

def factorLoopP (O' : Unit) : Nat → Expression → Parser → Except RunErr (Expression × Parser)
  | 0, _, _ => .error .fuel
  | n + 1, expr, p =>
    match p.peek with
    | .star =>
      let p1 := (p.advanceP).2
      match powerP O' n p1 with
      | .error e => .error e
      | .ok (right, p2) => factorLoopP O' n (.binary expr .multiply right) p2
    | .slash =>
      let p1 := (p.advanceP).2
      match powerP O' n p1 with
      | .error e => .error e
      | .ok (right, p2) => factorLoopP O' n (.binary expr .divide right) p2
    | .percent =>
      let p1 := (p.advanceP).2
      match powerP O' n p1 with
      | .error e => .error e
      | .ok (right, p2) => factorLoopP O' n (.binary expr .modulo right) p2
    | _ => .ok (expr, p)
termination_by structural n _ => n

/-- `Parser::power` (right-associative `^`). -/
def powerP (O' : Unit) : Nat → Parser → Except RunErr (Expression × Parser)
  | 0, _ => .error .fuel
  | n + 1, p =>
    match unaryEP O' n p with
    | .error e => .error e
    | .ok (expr, p1) =>
      if p1.peek = .caret then
        let p2 := (p1.advanceP).2
        match powerP O' n p2 with
        | .error e => .error e
        | .ok (right, p3) => .ok (.binary expr .power right, p3)
      else
        .ok (expr, p1)
termination_by structural n _ => n

/-- `Parser::unary`. -/
def unaryEP (O' : Unit) : Nat → Parser → Except RunErr (Expression × Parser)
  | 0, _ => .error .fuel
  | n + 1, p =>
    match p.peek with
    | .kwNot =>
      let p1 := (p.advanceP).2
      match unaryEP O' n p1 with
      | .error e => .error e
      | .ok (expr, p2) => .ok (.unary .not expr, p2)
    | .minus =>
      let p1 := (p.advanceP).2
      match unaryEP O' n p1 with
      | .error e => .error e
      | .ok (expr, p2) => .ok (.unary .minus expr, p2)
    | _ => callP O' n p
termination_by structural n _ => n

/-- `Parser::call` (postfix call/index). -/
def callP (O' : Unit) : Nat → Parser → Except RunErr (Expression × Parser)
  | 0, _ => .error .fuel
  | n + 1, p =>
    match primaryP O' n p with
    | .error e => .error e
    | .ok (expr, p1) => callLoopP O' n expr p1
termination_by structural n _ => n

def callLoopP (O' : Unit) : Nat → Expression → Parser → Except RunErr (Expression × Parser)
  | 0, _, _ => .error .fuel
  | n + 1, expr, p =>
    match p.peek with
    | .leftParen =>
      let p1 := (p.advanceP).2
      match argumentListP O' n p1 with
      | .error e => .error e
      | .ok (args, p2) =>
        if p2.peek ≠ .rightParen then .error (parseErr "Expected ')'" p2.peek)
        else
          let p3 := (p2.advanceP).2
          match expr with
          | .identifier name => callLoopP O' n (.functionCall name args) p3
          | _ => .error (.err (.parseError "Can only call functions"))
    | .leftBracket =>
      let p1 := (p.advanceP).2
      match expressionP O' n p1 with
      | .error e => .error e
      | .ok (idx, p2) =>
        if p2.peek ≠ .rightBracket then .error (parseErr "Expected ']'" p2.peek)
        else callLoopP O' n (.indexOp expr idx) (p2.advanceP).2
    | _ => .ok (expr, p)
termination_by structural n _ => n

/-- `Parser::primary`. -/
def primaryP (O' : Unit) : Nat → Parser → Except RunErr (Expression × Parser)
  | 0, _ => .error .fuel
  | n + 1, p =>
    let (t, p1) := p.advanceP
    match t with
    | .number q => .ok (.number q, p1)
    | .string s => .ok (.string s, p1)
    | .identifier name => .ok (.identifier name, p1)
    | .leftParen =>
      match expressionP O' n p1 with
      | .error e => .error e
      | .ok (expr, p2) =>
        if p2.peek ≠ .rightParen then .error (parseErr "Expected ')'" p2.peek)
        else .ok (expr, (p2.advanceP).2)
    | .leftBracket => arrayLiteralP O' n p1
    | .kwPattern => patternGeneratorP O' n p1
    | .kwAnimate => animatedGeneratorP O' n p1
    | .kwEvolve => cellularGeneratorP O' n p1
    | other => .error (.err (.parseError ("Unexpected token '" ++ other.display ++ "'")))
termination_by structural n _ => n

/-- `Parser::array_literal` (trailing comma tolerated; the `[` is already
consumed). -/
def arrayLiteralP (O' : Unit) : Nat → Parser → Except RunErr (Expression × Parser)
  | 0, _ => .error .fuel
  | n + 1, p =>
    match
      (if p.peek ≠ .rightBracket then
        match expressionP O' n p with
        | .error e => .error e
        | .ok (first, p1) => elemLoopP O' n [first] p1
      else
        .ok ([], p) : Except RunErr (List Expression × Parser)) with
    | .error e => .error e
    | .ok (elements, p2) =>
      if p2.peek ≠ .rightBracket then .error (parseErr "Expected ']'" p2.peek)
      else .ok (.array elements, (p2.advanceP).2)
termination_by structural n _ => n

/-- The comma-separated element loop shared by `array_literal`. -/
def elemLoopP (O' : Unit) : Nat → List Expression → Parser →
    Except RunErr (List Expression × Parser)
  | 0, _, _ => .error .fuel
  | n + 1, acc, p =>
    if p.peek = .comma then
      let p1 := (p.advanceP).2
      if p1.peek = .rightBracket then .ok (acc, p1)
      else
        match expressionP O' n p1 with
        | .error e => .error e
        | .ok (e, p2) => elemLoopP O' n (acc ++ [e]) p2
    else
      .ok (acc, p)
termination_by structural n _ => n

/-- `Parser::pattern_generator` (keyword already consumed). -/
def patternGeneratorP (O' : Unit) : Nat → Parser → Except RunErr (Expression × Parser)
  | 0, _ => .error .fuel
  | n + 1, p =>
    if p.peek ≠ .leftParen then .error (parseErr "Expected '('" p.peek)
    else
      match genHeaderP O' n (p.advanceP).2 with
      | .error e => .error e
      | .ok (width, height, p1) =>
        if p1.peek ≠ .leftBrace then .error (parseErr "Expected '\x7b'" p1.peek)
        else
          let p2 := ((p1.advanceP).2).skipNewlines
          match blockUntilP O' n [.rightBrace] p2 with
          | .error e => .error e
          | .ok (body, p3) =>
            if p3.peek ≠ .rightBrace then .error (parseErr "Expected '\x7d'" p3.peek)
            else .ok (.patternGenerator width height body, (p3.advanceP).2)
termination_by structural n _ => n

/-- The shared `(widthExpr, heightExpr)` header of the three generator
forms. -/
def genHeaderP (O' : Unit) : Nat → Parser → Except RunErr (Expression × Expression × Parser)
  | 0, _ => .error .fuel
  | n + 1, p =>
    match expressionP O' n p with
    | .error e => .error e
    | .ok (width, p1) =>
      if p1.peek ≠ .comma then .error (parseErr "Expected ','" p1.peek)
      else
        match expressionP O' n (p1.advanceP).2 with
        | .error e => .error e
        | .ok (height, p2) =>
          if p2.peek ≠ .rightParen then .error (parseErr "Expected ')'" p2.peek)
          else .ok (width, height, (p2.advanceP).2)
termination_by structural n _ => n

/-- `Parser::animated_generator` (keyword already consumed). -/
def animatedGeneratorP (O' : Unit) : Nat → Parser → Except RunErr (Expression × Parser)
  | 0, _ => .error .fuel
  | n + 1, p =>
    if p.peek ≠ .leftParen then .error (parseErr "Expected '('" p.peek)
    else
      match genHeaderP O' n (p.advanceP).2 with
      | .error e => .error e
      | .ok (width, height, p1) =>
        if p1.peek ≠ .kwUsing then .error (parseErr "Expected 'using'" p1.peek)
        else
          let (t, p2) := ((p1.advanceP).2).advanceP
          match t with
          | .identifier timeVar =>
            if p2.peek ≠ .leftBrace then .error (parseErr "Expected '\x7b'" p2.peek)
            else
              let p3 := ((p2.advanceP).2).skipNewlines
              match blockUntilP O' n [.rightBrace] p3 with
              | .error e => .error e
              | .ok (body, p4) =>
                if p4.peek ≠ .rightBrace then .error (parseErr "Expected '\x7d'" p4.peek)
                else .ok (.animatedGenerator width height timeVar body, (p4.advanceP).2)
          | other => .error (parseErr "Expected identifier" other)
termination_by structural n _ => n

/-- `Parser::cellular_generator` (keyword already consumed). -/
def cellularGeneratorP (O' : Unit) : Nat → Parser → Except RunErr (Expression × Parser)
  | 0, _ => .error .fuel
  | n + 1, p =>
    if p.peek ≠ .leftParen then .error (parseErr "Expected '('" p.peek)
    else
      match genHeaderP O' n (p.advanceP).2 with
      | .error e => .error e
      | .ok (width, height, p1) =>
        if p1.peek ≠ .kwFrom then .error (parseErr "Expected 'from'" p1.peek)
        else
          let (t, p2) := ((p1.advanceP).2).advanceP
          match t with
          | .identifier prevVar =>
            if p2.peek ≠ .leftBrace then .error (parseErr "Expected '\x7b'" p2.peek)
            else
              let p3 := ((p2.advanceP).2).skipNewlines
              match blockUntilP O' n [.rightBrace] p3 with
              | .error e => .error e
              | .ok (body, p4) =>
                if p4.peek ≠ .rightBrace then .error (parseErr "Expected '\x7d'" p4.peek)
                else .ok (.cellularGenerator width height prevVar body, (p4.advanceP).2)
          | other => .error (parseErr "Expected identifier" other)
termination_by structural n _ => n

/-- `Parser::argument_list` (trailing comma tolerated). -/
def argumentListP (O' : Unit) : Nat → Parser → Except RunErr (List Expression × Parser)
  | 0, _ => .error .fuel
  | n + 1, p =>
    if p.peek ≠ .rightParen then
      match expressionP O' n p with
      | .error e => .error e
      | .ok (first, p1) => argLoopP O' n [first] p1
    else
      .ok ([], p)
termination_by structural n _ => n

/-- The comma-separated argument loop of `argument_list`. -/
def argLoopP (O' : Unit) : Nat → List Expression → Parser →
    Except RunErr (List Expression × Parser)
  | 0, _, _ => .error .fuel
  | n + 1, acc, p =>
    if p.peek = .comma then
      let p1 := (p.advanceP).2
      if p1.peek = .rightParen then .ok (acc, p1)
      else
        match expressionP O' n p1 with
        | .error e => .error e
        | .ok (e, p2) => argLoopP O' n (acc ++ [e]) p2
    else
      .ok (acc, p)
termination_by structural n _ => n

end

/-- The top-level statement loop of `Parser::parse`. -/
def parseAux : Nat → Parser → Except RunErr (List Statement)
  | 0, _ => .error .fuel
  | n + 1, p =>
    if !p.isAtEnd then
      if p.peek = .newline then parseAux n (p.advanceP).2
      else
        match statementP () n p with
        | .error e => .error e
        | .ok (s, p1) =>
          match parseAux n p1 with
          | .error e => .error e
          | .ok ss => .ok (s :: ss)
    else
      .ok []

/-- `Parser::parse` with explicit fuel. -/
def parseTokens (fuel : Nat) (tokens : List Token) : Except RunErr Program :=
  match parseAux fuel (Parser.new tokens) with
  | .error e => .error e
  | .ok statements => .ok ⟨statements⟩

end RM

/-! ## The leaner variant (`src/`) -/

namespace SM

/-- `src/ast.rs`: declaration types (only `frame`/`frames`). -/
inductive VariableType
  | frame
  | frames
  deriving Repr, DecidableEq

/-- `src/ast.rs`: binary operators (no power). -/
inductive BinaryOperator
  | add
  | subtract
  | multiply
  | divide
  | modulo
  | equal
  | notEqual
  | greater
  | less
  | greaterEqual
  | lessEqual
  | and
  | or
  deriving Repr, DecidableEq

mutual

/-- `src/ast.rs`: statements of the leaner variant. -/
inductive Statement
  | variableDeclaration (varType : VariableType) (name : String) (value : Expression)
  | expressionStatement (expr : Expression)
  | assignment (name : String) (value : Expression)
  | repeatLoop (count : Expression) (body : List Statement)
  | ifStatement (condition : Expression) (thenBody : List Statement)
      (elseBody : Option (List Statement))

/-- `src/ast.rs`: expressions of the leaner variant. -/
inductive Expression
  | number (n : GF)
  | string (s : String)
  | identifier (name : String)
  | array (elements : List Expression)
  | functionCall (name : String) (args : List Expression)
  | binaryOperation (left : Expression) (operator : BinaryOperator) (right : Expression)
  | patternGenerator (width height : Expression) (body : List Statement)
      (returnExpr : Expression)
  | ternaryOperation (condition trueExpr falseExpr : Expression)

end

/-- `src/ast.rs`: a program. -/
structure Program where
  statements : List Statement

/-- `src/ast.rs`: `Frame`. -/
structure Frame where
  width : Nat
  height : Nat
  pixels : List (List Bool)
  deriving Repr, DecidableEq

/-- `src/ast.rs`: runtime values (no Boolean, no Function). -/
inductive Value
  | number (n : GF)
  | string (s : String)
  | frame (f : Frame)
  | frames (fs : List Frame)
  deriving Repr, DecidableEq

/-- Raw grid read, as in `RM.Frame.pix`. -/
def Frame.pix (f : Frame) (row col : Nat) : Bool :=
  ((f.pixels.getD row []).getD col false)

/-- `Frame::new` of the leaner variant: derives the dimensions from the
data and accepts an empty grid as 0×0. -/
def Frame.new (data : List (List Bool)) : Frame :=
  match data with
  | [] => { width := 0, height := 0, pixels := [] }
  | _ => { width := (data.headD []).length, height := data.length, pixels := data }

/-- `Frame::new_blank`. -/
def Frame.newBlank (width height : Nat) : Frame :=
  { width := width
    height := height
    pixels := List.replicate height (List.replicate width false) }

/-- `Frame::from_array` of the leaner variant (same checks as the richer
one). -/
def Frame.fromArray (data : List (List Bool)) : Except GizmoError Frame :=
  match data with
  | [] => .error (.invalidFrameSize "Frame cannot be empty")
  | _ =>
    let width := (data.headD []).length
    match RM.checkRows width data 0 with
    | .error e => .error e
    | .ok _ => .ok { width := width, height := data.length, pixels := data }

/-- `Value::to_number` of the leaner variant: only Number converts. -/
def Value.toNumber : Value → Except GizmoError GF
  | .number n => .ok n
  | _ => .error (.typeError "Cannot convert to number")

/-! ### `src/builtin.rs` -/

def animationPlay (args : List Value) : Except GizmoError Value :=
  match args with
  | [a] =>
    match a with
    | .frames _ => .ok (.number (.fin 1))
    | .frame _ => .ok (.number (.fin 1))
    | _ => .error (.typeError "play argument must be a frame or frames array")
  | _ => .error (.argumentError ("play expects 1 argument, got " ++ toString args.length))

def animationLoop (_args : List Value) : Except GizmoError Value :=
  .ok (.number (.fin 1))

def mathRandom (O : FloatOracle) (_args : List Value) : Except GizmoError Value :=
  .ok (.number O.random)

def mathFloor (args : List Value) : Except GizmoError Value :=
  match args with
  | [a] =>
    match a with
    | .number n => .ok (.number n.floorF)
    | _ => .error (.typeError "floor argument must be a number")
  | _ => .error (.argumentError ("floor expects 1 argument, got " ++ toString args.length))

def mathCeil (args : List Value) : Except GizmoError Value :=
  match args with
  | [a] =>
    match a with
    | .number n => .ok (.number n.ceilF)
    | _ => .error (.typeError "ceil argument must be a number")
  | _ => .error (.argumentError ("ceil expects 1 argument, got " ++ toString args.length))

def mathAbs (args : List Value) : Except GizmoError Value :=
  match args with
  | [a] =>
    match a with
    | .number n => .ok (.number n.absF)
    | _ => .error (.typeError "abs argument must be a number")
  | _ => .error (.argumentError ("abs expects 1 argument, got " ++ toString args.length))

def createFrame (args : List Value) : Except GizmoError Value :=
  match args with
  | [a, b] =>
    match a with
    | .number w =>
      match b with
      | .number h =>
        .ok (.frame (Frame.new
          (List.replicate h.toUnsigned (List.replicate w.toUnsigned false))))
      | _ => .error (.typeError "height must be a number")
    | _ => .error (.typeError "width must be a number")
  | _ =>
    .error (.argumentError
      ("create_frame expects 2 arguments (width, height), got " ++ toString args.length))

def getPixel (args : List Value) : Except GizmoError Value :=
  match args with
  | [a, b, c] =>
    match a with
    | .frame f =>
      match b with
      | .number xN =>
        match c with
        | .number yN =>
          let x := xN.toUnsigned
          let y := yN.toUnsigned
          if y < f.pixels.length ∧ x < (f.pixels.headD []).length then
            .ok (.number (.fin (if f.pix y x then 1 else 0)))
          else
            .ok (.number (.fin 0))
        | _ => .error (.typeError "y coordinate must be a number")
      | _ => .error (.typeError "x coordinate must be a number")
    | _ => .error (.typeError "first argument must be a frame")
  | _ =>
    .error (.argumentError
      ("get_pixel expects 3 arguments (frame, x, y), got " ++ toString args.length))

def setPixel (_args : List Value) : Except GizmoError Value :=
  .ok (.number (.fin 1))

def mathSin (O : FloatOracle) (args : List Value) : Except GizmoError Value :=
  match args with
  | [a] =>
    match a with
    | .number n => .ok (.number (O.sinF n))
    | _ => .error (.typeError "sin argument must be a number")
  | _ => .error (.argumentError ("sin expects 1 argument, got " ++ toString args.length))

def mathCos (O : FloatOracle) (args : List Value) : Except GizmoError Value :=
  match args with
  | [a] =>
    match a with
    | .number n => .ok (.number (O.cosF n))
    | _ => .error (.typeError "cos argument must be a number")
  | _ => .error (.argumentError ("cos expects 1 argument, got " ++ toString args.length))

def mathSqrt (O : FloatOracle) (args : List Value) : Except GizmoError Value :=
  match args with
  | [a] =>
    match a with
    | .number n =>
      if n.isNegative then .error (.argumentError "sqrt of negative number")
      else .ok (.number (O.sqrtF n))
    | _ => .error (.typeError "sqrt argument must be a number")
  | _ => .error (.argumentError ("sqrt expects 1 argument, got " ++ toString args.length))

def mathAtan2 (O : FloatOracle) (args : List Value) : Except GizmoError Value :=
  match args with
  | [a, b] =>
    match a with
    | .number y =>
      match b with
      | .number x => .ok (.number (O.atan2F y x))
      | _ => .error (.typeError "atan2 second argument (x) must be a number")
    | _ => .error (.typeError "atan2 first argument (y) must be a number")
  | _ => .error (.argumentError ("atan2 expects 2 arguments (y, x), got " ++ toString args.length))

/-- The inert `add_frame` builtin entry (array mutation is done by the
interpreter's special handling). -/
def addFrameFunc (args : List Value) : Except GizmoError Value :=
  match args with
  | [_, _] => .ok (.number (.fin 1))
  | _ =>
    .error (.argumentError
      ("add_frame expects 2 arguments (frames_array, frame), got " ++ toString args.length))

/-- The inert `loop_speed` builtin entry. -/
def loopSpeedFunc (args : List Value) : Except GizmoError Value :=
  match args with
  | [a, _] =>
    match a with
    | .frames _ => .ok (.number (.fin 1))
    | _ => .error (.typeError "loop_speed first argument must be frames array")
  | _ =>
    .error (.argumentError
      ("loop_speed expects 2 arguments (frames_array, ms), got " ++ toString args.length))

/-- The names registered by the leaner `BuiltinFunctions::new`. -/
def builtinNames : List String :=
  ["play", "loop", "add_frame", "loop_speed",
   "random", "floor", "ceil", "abs", "sin", "cos", "sqrt", "atan2",
   "create_frame", "get_pixel", "set_pixel"]

/-- `BuiltinFunctions::has_function`. -/
def hasFunction (name : String) : Bool := builtinNames.contains name

/-- `BuiltinFunctions::call`. -/
def builtinCall (O : FloatOracle) (name : String) (args : List Value) :
    Except GizmoError Value :=
  match name with
  | "play" => animationPlay args
  | "loop" => animationLoop args
  | "add_frame" => addFrameFunc args
  | "loop_speed" => loopSpeedFunc args
  | "random" => mathRandom O args
  | "floor" => mathFloor args
  | "ceil" => mathCeil args
  | "abs" => mathAbs args
  | "sin" => mathSin O args
  | "cos" => mathCos O args
  | "sqrt" => mathSqrt O args
  | "atan2" => mathAtan2 O args
  | "create_frame" => createFrame args
  | "get_pixel" => getPixel args
  | "set_pixel" => setPixel args
  | _ => .error (.undefinedFunction name)

/-- `src/interpreter.rs`: the single flat `Environment`. -/
def Env := List (String × Value)

/-- `Environment::define` (insert or overwrite). -/
def envDefine (env : Env) (name : String) (value : Value) : Env :=
  (name, value) :: env

/-- `Environment::get`. -/
def envGet (env : Env) (name : String) : Except GizmoError Value :=
  match List.lookup name env with
  | some v => .ok v
  | none => .error (.undefinedVariable name)

/-- The mutable fields of the leaner `Interpreter` (builtins constant,
renderer display-only). -/
structure InterpState where
  environment : Env
  outputFrames : List Frame
  frameDurationMs : Nat

/-- `Interpreter::new` (default 100 ms per frame). -/
def InterpState.init : InterpState :=
  { environment := [], outputFrames := [], frameDurationMs := 100 }

/-- Write one cell of the pattern matrix (`frame_data[row][col] = b`). -/
def matSet (m : List (List Bool)) (row col : Nat) (b : Bool) : List (List Bool) :=
  m.set row ((m.getD row []).set col b)

def isFrameValueS : Value → Bool
  | .frame _ => true
  | _ => false

def isNumberValueS : Value → Bool
  | .number _ => true
  | _ => false

/-- The pixel row built from an all-Number array literal (the guard makes
`to_number` infallible). -/
def numRowS (values : List Value) : List Bool :=
  values.map (fun v =>
    match v with
    | .number n => n.neZero
    | _ => false)

/-- Extraction used under the all-Frame guard of the array-literal rule
(the non-frame branch is the source's `unreachable!`). -/
def asFramesS : List Value → List Frame
  | [] => []
  | .frame f :: rest => f :: asFramesS rest
  | _ :: rest => asFramesS rest

end SM

namespace SM

mutual

/-- Leaner `Interpreter::execute_statement` (no escaping results: every
statement returns unit). -/
def executeStatement (O : FloatOracle) : Nat → Statement → InterpState →
    Except RunErr InterpState
  | 0, _, _ => .error .fuel
  | n + 1, .variableDeclaration _ name value, st =>
    match evaluateExpression O n value st with
    | .error e => .error e
    | .ok (val, st') =>
      .ok { st' with environment := envDefine st'.environment name val }
  | n + 1, .assignment name value, st =>
    match evaluateExpression O n value st with
    | .error e => .error e
    | .ok (val, st') =>
      .ok { st' with environment := envDefine st'.environment name val }
  | n + 1, .expressionStatement expr, st =>
    match evaluateExpression O n expr st with
    | .error e => .error e
    | .ok (_result, st1) =>
      -- Special handling for the animation control calls, which
      -- re-evaluate their argument expressions.
      match expr with
      | .functionCall name args =>
        if name = "add_frame" then
          match args with
          | [.identifier arrayName, secondArg] =>
            match evaluateExpression O n secondArg st1 with
            | .error e => .error e
            | .ok (frameValue, st2) =>
              match frameValue with
              | .frame frame =>
                let frames :=
                  match envGet st2.environment arrayName with
                  | .ok (.frames existing) => existing
                  | _ => []
                .ok { st2 with
                      environment :=
                        envDefine st2.environment arrayName (.frames (frames ++ [frame])) }
              | _ => .ok st2
          | _ => .ok st1
        else if name = "loop_speed" then
          match args with
          | [firstArg, secondArg] =>
            match evaluateExpression O n firstArg st1 with
            | .error e => .error e
            | .ok (frameValue, st2) =>
              match evaluateExpression O n secondArg st2 with
              | .error e => .error e
              | .ok (timingValue, st3) =>
                let st4 :=
                  match frameValue with
                  | .frames frames => { st3 with outputFrames := frames }
                  | .frame frame => { st3 with outputFrames := [frame] }
                  | _ => st3
                match timingValue with
                | .number ms =>
                  -- Clamp to the 1–10000 ms range.
                  .ok { st4 with frameDurationMs := min (max ms.toUnsigned 1) 10000 }
                | _ => .ok st4
          | _ => .ok st1
        else if name = "play" ∨ name = "loop" then
          match args with
          | firstArg :: _ =>
            match evaluateExpression O n firstArg st1 with
            | .error e => .error e
            | .ok (frameValue, st2) =>
              match frameValue with
              | .frames frames => .ok { st2 with outputFrames := frames }
              | .frame frame => .ok { st2 with outputFrames := [frame] }
              | _ => .ok st2
          | [] => .ok st1
        else
          .ok st1
      | _ => .ok st1
  | n + 1, .ifStatement condition thenBody elseBody, st =>
    match evaluateExpression O n condition st with
    | .error e => .error e
    | .ok (conditionVal, st1) =>
      match conditionVal with
      | .number q =>
        if q.neZero then execStmtsS O n thenBody st1
        else
          match elseBody with
          | some elseStatements => execStmtsS O n elseStatements st1
          | none => .ok st1
      | _ => .error (.err (.typeError "if condition must be a number"))
  | n + 1, .repeatLoop count body, st =>
    match evaluateExpression O n count st with
    | .error e => .error e
    | .ok (countValue, st1) =>
      match countValue with
      | .number q => repeatLoopS O n q.toUnsigned 0 body st1
      | _ => .error (.err (.typeError "repeat count must be a number"))
termination_by structural n _ _ => n

/-- Sequential statement execution (the plain `for stmt in body` loops). -/
def execStmtsS (O : FloatOracle) : Nat → List Statement → InterpState →
    Except RunErr InterpState
  | 0, _, _ => .error .fuel
  | _ + 1, [], st => .ok st
  | n + 1, stmt :: rest, st =>
    match executeStatement O n stmt st with
    | .error e => .error e
    | .ok st' => execStmtsS O n rest st'
termination_by structural n _ _ => n

/-- The leaner repeat loop: each iteration publishes the 0-based index as
`time` in the (single, global) environment and runs the body. -/
def repeatLoopS (O : FloatOracle) : Nat → Nat → Nat → List Statement → InterpState →
    Except RunErr InterpState
  | 0, _, _, _, _ => .error .fuel
  | _ + 1, 0, _, _, st => .ok st
  | n + 1, k + 1, i, body, st =>
    let st1 := { st with
                 environment := envDefine st.environment "time" (.number (.fin (GQ.ofNat i))) }
    match execStmtsS O n body st1 with
    | .error e => .error e
    | .ok st2 => repeatLoopS O n k (i + 1) body st2
termination_by structural n _ _ _ _ => n

/-- Leaner `Interpreter::evaluate_expression`. -/
def evaluateExpression (O : FloatOracle) : Nat → Expression → InterpState →
    Except RunErr (Value × InterpState)
  | 0, _, _ => .error .fuel
  | _ + 1, .number q, st => .ok (.number q, st)
  | _ + 1, .string s, st => .ok (.string s, st)
  | _ + 1, .identifier name, st =>
    match envGet st.environment name with
    | .error e => .error (.err e)
    | .ok v => .ok (v, st)
  | n + 1, .array elements, st =>
    match evalArgsS O n elements st with
    | .error e => .error e
    | .ok (values, st') =>
      if values.all isNumberValueS then
        match Frame.fromArray [numRowS values] with
        | .error e => .error (.err e)
        | .ok f => .ok (.frame f, st')
      else if values.all isFrameValueS then
        match values with
        | [single] => .ok (single, st')
        | _ =>
          if values.all (fun v =>
              match v with
              | .frame f => f.height = 1
              | _ => false) then
            match Frame.fromArray (values.map (fun v =>
                match v with
                | .frame f => f.pixels.headD []
                | _ => [])) with
            | .error e => .error (.err e)
            | .ok f => .ok (.frame f, st')
          else
            .ok (.frames (asFramesS values), st')
      else
        .error (.err (.typeError "Cannot create array from mixed types"))
  | n + 1, .functionCall name args, st =>
    match evalArgsS O n args st with
    | .error e => .error e
    | .ok (argValues, st') =>
      if hasFunction name then
        match builtinCall O name argValues with
        | .error e => .error (.err e)
        | .ok v => .ok (v, st')
      else
        .error (.err (.undefinedFunction name))
  | n + 1, .binaryOperation left operator right, st =>
    match evaluateExpression O n left st with
    | .error e => .error e
    | .ok (leftVal, st1) =>
      match evaluateExpression O n right st1 with
      | .error e => .error e
      | .ok (rightVal, st2) =>
        match leftVal, rightVal with
        | .number l, .number r =>
          match operator with
          | .add => .ok (.number (GF.add l r), st2)
          | .subtract => .ok (.number (GF.sub l r), st2)
          | .multiply => .ok (.number (GF.mul l r), st2)
          | .divide =>
            if r.beqZero then .error (.err .divisionByZero)
            else .ok (.number (GF.protDiv l r), st2)
          | .modulo =>
            -- No zero-divisor check in this variant: `l % 0.0` is NaN.
            .ok (.number (GF.rem l r), st2)
          | .greater => .ok (.number (if GF.gtB l r then .fin 1 else .fin 0), st2)
          | .less => .ok (.number (if GF.ltB l r then .fin 1 else .fin 0), st2)
          | .greaterEqual => .ok (.number (if GF.geB l r then .fin 1 else .fin 0), st2)
          | .lessEqual => .ok (.number (if GF.leB l r then .fin 1 else .fin 0), st2)
          | .equal =>
            .ok (.number (if GF.ltB (GF.absF (GF.sub l r)) (.fin f64Epsilon)
                          then .fin 1 else .fin 0), st2)
          | .notEqual =>
            .ok (.number (if GF.geB (GF.absF (GF.sub l r)) (.fin f64Epsilon)
                          then .fin 1 else .fin 0), st2)
          | .and => .ok (.number (if l.neZero ∧ r.neZero then .fin 1 else .fin 0), st2)
          | .or => .ok (.number (if l.neZero ∨ r.neZero then .fin 1 else .fin 0), st2)
        | _, _ => .error (.err (.typeError "Binary operations only supported for numbers"))
  | n + 1, .patternGenerator width height body returnExpr, st =>
    match evaluateExpression O n width st with
    | .error e => .error e
    | .ok (widthVal, st1) =>
      match widthVal with
      | .number wq =>
        match evaluateExpression O n height st1 with
        | .error e => .error e
        | .ok (heightVal, st2) =>
          match heightVal with
          | .number hq =>
            let w := wq.toUnsigned
            let h := hq.toUnsigned
            match patternLoopS O n (RM.coords h w) body returnExpr
                (List.replicate h (List.replicate w false)) st2 with
            | .error e => .error e
            | .ok (frameData, st3) => .ok (.frame (Frame.new frameData), st3)
          | _ => .error (.err (.typeError "pattern height must be a number"))
      | _ => .error (.err (.typeError "pattern width must be a number"))
  | n + 1, .ternaryOperation condition trueExpr falseExpr, st =>
    match evaluateExpression O n condition st with
    | .error e => .error e
    | .ok (conditionVal, st1) =>
      match conditionVal with
      | .number q =>
        if q.neZero then evaluateExpression O n trueExpr st1
        else evaluateExpression O n falseExpr st1
      | _ => .error (.err (.typeError "ternary condition must be a number"))
termination_by structural n _ _ => n

/-- Argument/element evaluation. -/
def evalArgsS (O : FloatOracle) : Nat → List Expression → InterpState →
    Except RunErr (List Value × InterpState)
  | 0, _, _ => .error .fuel
  | _ + 1, [], st => .ok ([], st)
  | n + 1, e :: rest, st =>
    match evaluateExpression O n e st with
    | .error err => .error err
    | .ok (v, st') =>
      match evalArgsS O n rest st' with
      | .error err => .error err
      | .ok (vs, st'') => .ok (v :: vs, st'')
termination_by structural n _ _ => n

/-- The per-pixel loop of the leaner pattern generator: `row`/`col` are
defined in the single global environment (no child scope, no cleanup),
the body statements run, and the distinguished return expression must
yield a Number. -/
def patternLoopS (O : FloatOracle) : Nat → List (Nat × Nat) → List Statement →
    Expression → List (List Bool) → InterpState →
    Except RunErr (List (List Bool) × InterpState)
  | 0, _, _, _, _, _ => .error .fuel
  | _ + 1, [], _, _, frameData, st => .ok (frameData, st)
  | n + 1, (row, col) :: rest, body, returnExpr, frameData, st =>
    let st1 := { st with
                 environment :=
                   envDefine
                     (envDefine st.environment "row" (.number (.fin (GQ.ofNat row))))
                     "col" (.number (.fin (GQ.ofNat col))) }
    match execStmtsS O n body st1 with
    | .error e => .error e
    | .ok st2 =>
      match evaluateExpression O n returnExpr st2 with
      | .error e => .error e
      | .ok (pixelValue, st3) =>
        match pixelValue with
        | .number q =>
          patternLoopS O n rest body returnExpr (matSet frameData row col q.neZero) st3
        | _ => .error (.err (.typeError "pattern expression must return a number"))
termination_by structural n _ _ _ _ _ => n

end

/-- Leaner `Interpreter::execute`. -/
def execute (O : FloatOracle) (n : Nat) (program : Program) (st : InterpState) :
    Except RunErr InterpState :=
  execStmtsS O n program.statements st

end SM

/-! ## Theorems -/

/-- Claim C1 theorem.  In the richer variant (`interpreter_modules`),
`apply_binary_operator` fails with the division-by-zero error for `/` and
`%` whenever the right operand is the Number 0.0, for every left Number
operand (NaN included), so no NaN/Infinity is produced there.  In the
leaner variant (`src`), `/` by 0.0 also fails, but `%` has no zero-divisor
check: `1 % 0` evaluates to the NaN Number, contradicting the claim. -/
theorem c1_division_modulo_by_zero :
    (∀ (O : FloatOracle) (a : GF),
      RM.applyBinaryOperator O (.number a) .divide (.number (.fin 0)) =
        .error .divisionByZero) ∧
    (∀ (O : FloatOracle) (a : GF),
      RM.applyBinaryOperator O (.number a) .modulo (.number (.fin 0)) =
        .error .divisionByZero) ∧
    (SM.evaluateExpression dummyOracle 10
      (.binaryOperation (.number (.fin 1)) .divide (.number (.fin 0)))
      SM.InterpState.init = .error (.err .divisionByZero)) ∧
    (SM.evaluateExpression dummyOracle 10
      (.binaryOperation (.number (.fin 1)) .modulo (.number (.fin 0)))
      SM.InterpState.init = .ok (.number .nan, SM.InterpState.init)) :=
  ⟨fun _ _ => rfl, fun _ _ => rfl, rfl, rfl⟩

/-- Claim C4 theorem.  Neither variant short-circuits `and`/`or`: both
evaluate the right operand first and apply the boolean operation to the
finished values.  With a falsy left operand and a right operand `1 / 0`,
the claim demands the result `false` (no evaluation of the right side);
instead both interpreters fail with the division-by-zero error raised by
evaluating the right operand. -/
theorem c4_no_short_circuit :
    (∀ (O : FloatOracle) (n : Nat) (st : RM.InterpState),
      RM.evaluateExpression O (n + 3)
        (.binary (.boolean false) .and
          (.binary (.number (.fin 1)) .divide (.number (.fin 0)))) st =
        .error (.err .divisionByZero)) ∧
    (∀ (O : FloatOracle) (n : Nat) (st : RM.InterpState),
      RM.evaluateExpression O (n + 3)
        (.binary (.boolean true) .or
          (.binary (.number (.fin 1)) .divide (.number (.fin 0)))) st =
        .error (.err .divisionByZero)) ∧
    (∀ (O : FloatOracle) (n : Nat) (st : SM.InterpState),
      SM.evaluateExpression O (n + 3)
        (.binaryOperation (.number (.fin 0)) .and
          (.binaryOperation (.number (.fin 1)) .divide (.number (.fin 0)))) st =
        .error (.err .divisionByZero)) :=
  ⟨fun _ _ _ => rfl, fun _ _ _ => rfl, fun _ _ _ => rfl⟩

namespace RM

/-- The `main`-flow front end of the richer variant: tokenize, then
parse. -/
def lexParse (fuel : Nat) (source : String) : Except RunErr Program :=
  match tokenize source with
  | .error e => .error e
  | .ok ts => parseTokens fuel ts

end RM

/-- The claim C5 script, exactly as the spec writes it. -/
def c5Script : String := "num x = 0\nwhen clicked do\nx = x + 1\nend"

/-- The nearest runnable variant of the C5 script: the handler body is a
`num` declaration instead of a plain assignment. -/
def c5DeclScript : String := "num x = 0\nwhen clicked do\nnum x = x + 1\nend"

/-- The numeric payload of a Value, when it is a finite Number. -/
def RM.Value.numVal : RM.Value → Option GQ
  | .number (.fin q) => some q
  | _ => none

/-- The token stream of `c5Script` (established below by evaluating the
lexer). -/
def c5Tokens : List RM.Token :=
  [.kwNum, .identifier "x", .equal, .number (.fin 0), .newline,
   .kwWhen, .kwClicked, .kwDo, .newline,
   .identifier "x", .equal, .identifier "x", .plus, .number (.fin 1), .newline,
   .kwEnd, .eof]

/-- The token stream of `c5DeclScript`. -/
def c5DeclTokens : List RM.Token :=
  [.kwNum, .identifier "x", .equal, .number (.fin 0), .newline,
   .kwWhen, .kwClicked, .kwDo, .newline,
   .kwNum, .identifier "x", .equal, .identifier "x", .plus, .number (.fin 1), .newline,
   .kwEnd, .eof]

/-- Parse the given token stream, `execute` the program, fire `clicks`
click events, and read the global `x` as a number. -/
def c5RunTokens (tokens : List RM.Token) (clicks : Nat) : Except RunErr (Option GQ) := do
  let prog ← RM.parseTokens 100 tokens
  let st0 ← RM.execute dummyOracle 100 prog (RM.InterpState.init 0)
  let stFinal ←
    (List.range clicks).foldlM (fun st _ => RM.handleClickEvent dummyOracle 100 st) st0
  match stFinal.environment.get "x" with
  | .ok v => pure v.numVal
  | .error e => .error (.err e)

/-- Claim C5 counterexample.  The richer variant — the only one with
`when`/click handlers — has no assignment-statement production: the
script lexes, but in the handler body `x` parses as an expression
statement and the parser then fails on the `=` token.  The spec's script
cannot execute at all, so two clicks cannot leave `x` equal to 2. -/
theorem c5_assignment_does_not_parse :
    RM.tokenize c5Script = .ok c5Tokens ∧
    exceptErr (RM.parseTokens 100 c5Tokens) =
      some (.err (.parseError "Unexpected token '='")) := by
  constructor
  · decide
  · decide

/-- Claim C5 theorem (amended).  With the handler body written as the
declaration `num x = x + 1` (the parseable counterpart of the
assignment), the script lexes and parses; the handler body does not run
at registration time (`x` is still 0 after `execute`), and two
click-event calls leave the global `x` bound to the Number 2. -/
theorem c5_two_clicks_after_declaration_fix :
    RM.tokenize c5DeclScript = .ok c5DeclTokens ∧
    c5RunTokens c5DeclTokens 0 = .ok (some 0) ∧
    c5RunTokens c5DeclTokens 2 = .ok (some 2) := by
  refine ⟨by decide, by decide, by decide⟩

/-- A richer-variant state with `fs` bound to an (empty) Frames value. -/
def c2State : RM.InterpState :=
  { RM.InterpState.init 0 with environment := RM.Env.new.define "fs" (.frames []) }

/-- Claim C2 counterexample.  In the richer variant — the only one with a
`play_speed` call — the stored duration is not clamped:
`play_speed(fs, 0)` stores 0 ms (the claim demands 1) and
`play_speed(fs, 50000)` stores 50000 ms (the claim demands 10000). -/
theorem c2_play_speed_does_not_clamp :
    ((RM.executeStatement dummyOracle 10
        (.expressionStatement (.functionCall "play_speed" [.identifier "fs", .number (.fin 0)]))
        c2State).map (fun r => r.2.animationState.map (fun a => a.frameDuration)) =
      .ok (some 0)) ∧
    ((RM.executeStatement dummyOracle 10
        (.expressionStatement
          (.functionCall "play_speed" [.identifier "fs", .number (.fin 50000)]))
        c2State).map (fun r => r.2.animationState.map (fun a => a.frameDuration)) =
      .ok (some 50000)) ∧
    ¬(1 ≤ (0 : Nat)) ∧ ¬((50000 : Nat) ≤ 10000) :=
  ⟨by decide, by decide, by decide, by decide⟩

/-- Claim C2 theorem (amended).  The richer variant's `play_speed` stores
the millisecond argument truncated to an integer but unclamped
(0 stores 0, 50000 stores 50000); the clamp to [1,10000] the claim
describes lives in the leaner variant's `loop_speed`, which stores 1 for
0 and 10000 for 50000. -/
theorem c2_duration_semantics :
    (∀ (O : FloatOracle) (n : Nat) (st : RM.InterpState) (l : List RM.Frame) (q : GF),
      st.environment.get "fs" = .ok (.frames l) →
      RM.executeStatement O (n + 5)
        (.expressionStatement (.functionCall "play_speed" [.identifier "fs", .number q])) st =
        .ok (some (.boolean true),
          { st with animationState := some (RM.AnimationState.new l false q.toUnsigned),
                    outputFrames := l })) ∧
    (∀ (O : FloatOracle) (n : Nat) (st : SM.InterpState) (l : List SM.Frame) (q : GF),
      SM.envGet st.environment "fs" = .ok (.frames l) →
      SM.executeStatement O (n + 5)
        (.expressionStatement (.functionCall "loop_speed" [.identifier "fs", .number q])) st =
        .ok { st with outputFrames := l,
                      frameDurationMs := min (max q.toUnsigned 1) 10000 }) ∧
    (GF.toUnsigned (.fin 0) = 0 ∧ GF.toUnsigned (.fin 50000) = 50000) ∧
    (min (max (GF.toUnsigned (.fin 0)) 1) 10000 = 1 ∧
     min (max (GF.toUnsigned (.fin 50000)) 1) 10000 = 10000) := by
  refine ⟨?_, ?_, by decide, by decide⟩
  · intro O n st l q h
    show RM.executeStatement O (n + 4 + 1) _ _ = _
    simp only [RM.executeStatement, RM.evaluateExpression, RM.evalArgs, h, RM.hasFunction,
      RM.builtinNames, RM.builtinCall, RM.animationPlaySpeedEntry, RM.handleAnimationFunction,
      List.contains, List.elem, String.reduceEq, reduceIte, Bool.or_true, Bool.true_or,
      String.reduceBEq, cond, false_or, or_true, if_true]
  · intro O n st l q h
    show SM.executeStatement O (n + 4 + 1) _ _ = _
    simp only [SM.executeStatement, SM.evaluateExpression, SM.evalArgsS, h, SM.hasFunction,
      SM.builtinNames, SM.builtinCall, SM.loopSpeedFunc, List.contains, List.elem,
      String.reduceEq, reduceIte, Bool.or_true, Bool.true_or, String.reduceBEq, cond,
      false_or, or_true, if_true, or_false]

/-- A leaner-variant state with `fs` bound to an (empty) Frames value. -/
def c2LeanState : SM.InterpState :=
  { SM.InterpState.init with environment := [("fs", .frames [])] }

/-- Witness for `c2_duration_semantics` at concrete inputs: the richer
variant stores 0 ms for `play_speed(fs, 0)`, the leaner one stores the
clamped 1 ms for `loop_speed(fs, 0)`. -/
theorem c2_duration_semantics_witness :
    RM.executeStatement dummyOracle 5
      (.expressionStatement (.functionCall "play_speed" [.identifier "fs", .number (.fin 0)]))
      c2State =
      .ok (some (.boolean true),
        { c2State with animationState := some (RM.AnimationState.new [] false 0),
                       outputFrames := [] }) ∧
    SM.executeStatement dummyOracle 5
      (.expressionStatement (.functionCall "loop_speed" [.identifier "fs", .number (.fin 0)]))
      c2LeanState =
      .ok { c2LeanState with outputFrames := [], frameDurationMs := 1 } :=
  ⟨c2_duration_semantics.1 dummyOracle 0 c2State [] (.fin 0) rfl,
   c2_duration_semantics.2.1 dummyOracle 0 c2LeanState [] (.fin 0) rfl⟩

/-- A leaner-variant state with a counter `c` bound to 0. -/
def c6LeanState : SM.InterpState :=
  { SM.InterpState.init with environment := [("c", .number (.fin 0))] }

/-- A 1×1 pattern whose body increments `c` — an argument expression
whose evaluations are countable. -/
def c6PatternArg : SM.Expression :=
  .patternGenerator (.number (.fin 1)) (.number (.fin 1))
    [.assignment "c" (.binaryOperation (.identifier "c") .add (.number (.fin 1)))]
    (.number (.fin 1))

/-- Claim C6 counterexample.  (1) In the richer variant an expression
statement `play()` is dispatched to the builtin registry like any call:
the statement fails with the builtin table entry's own arity error, so
the "inert" entry is invoked.  (2) In the leaner variant the statement
`play(pattern(1,1){ c = c + 1 } …)` leaves `c = 2`: the argument is
evaluated once by ordinary dispatch and a second time by the
interception, not exactly once. -/
theorem c6_builtin_dispatch_counterexample :
    (RM.executeStatement dummyOracle 10
      (.expressionStatement (.functionCall "play" [])) (RM.InterpState.init 0) =
      .error (.err (.argumentError "play expects 1 argument, got 0"))) ∧
    ((SM.executeStatement dummyOracle 30
        (.expressionStatement (.functionCall "play" [c6PatternArg])) c6LeanState).map
      (fun st => SM.envGet st.environment "c") =
      .ok (.ok (.number (.fin 2)))) :=
  ⟨rfl, by decide⟩

/-- Claim C6 theorem (amended).  An expression statement calling play /
loop / play_speed / stop / add_frame is first dispatched to the builtin
registry like any function call (each argument evaluated once, the
placeholder entry invoked, its return value becoming the statement's
escaping result); afterwards the richer interpreter additionally
intercepts play / loop / play_speed (the leaner one: play / loop /
loop_speed / add_frame), re-evaluating each argument a second time and
mutating interpreter state.  `stop` and `add_frame` are not intercepted
at all in the richer variant. -/
theorem c6_dispatch_then_intercept :
    (∀ (O : FloatOracle) (n : Nat) (st : RM.InterpState),
      RM.executeStatement O (n + 3)
        (.expressionStatement (.functionCall "play" [])) st =
        .error (.err (.argumentError "play expects 1 argument, got 0"))) ∧
    (∀ (O : FloatOracle) (n : Nat) (st : RM.InterpState),
      RM.executeStatement O (n + 3)
        (.expressionStatement (.functionCall "stop" [])) st =
        .ok (some (.boolean true), st)) ∧
    (∀ (O : FloatOracle) (n : Nat) (st : RM.InterpState) (l : List RM.Frame),
      st.environment.get "fs" = .ok (.frames l) →
      RM.executeStatement O (n + 5)
        (.expressionStatement (.functionCall "play" [.identifier "fs"])) st =
        .ok (some (.boolean true),
          { st with animationState := some (RM.AnimationState.new l false 100),
                    outputFrames := l })) ∧
    ((SM.executeStatement dummyOracle 30
        (.expressionStatement (.functionCall "play" [c6PatternArg])) c6LeanState).map
      (fun st => SM.envGet st.environment "c") =
      .ok (.ok (.number (.fin 2)))) := by
  refine ⟨fun O n st => rfl, fun O n st => rfl, ?_, by decide⟩
  intro O n st l h
  show RM.executeStatement O (n + 4 + 1) _ _ = _
  simp only [RM.executeStatement, RM.evaluateExpression, RM.evalArgs, h, RM.hasFunction,
    RM.builtinNames, RM.builtinCall, RM.animationPlayEntry, RM.handleAnimationFunction,
    List.contains, List.elem, String.reduceEq, reduceIte, Bool.or_true, Bool.true_or,
    String.reduceBEq, cond, false_or, or_true, if_true, true_or]

/-- Witness for `c6_dispatch_then_intercept` at concrete inputs. -/
theorem c6_dispatch_then_intercept_witness :
    RM.executeStatement dummyOracle 5
      (.expressionStatement (.functionCall "play" [.identifier "fs"])) c2State =
      .ok (some (.boolean true),
        { c2State with animationState := some (RM.AnimationState.new [] false 100),
                       outputFrames := [] }) ∧
    RM.executeStatement dummyOracle 3
      (.expressionStatement (.functionCall "stop" [])) (RM.InterpState.init 0) =
      .ok (some (.boolean true), RM.InterpState.init 0) :=
  ⟨c6_dispatch_then_intercept.2.2.1 dummyOracle 0 c2State [] rfl,
   c6_dispatch_then_intercept.2.1 dummyOracle 0 (RM.InterpState.init 0)⟩

/-- Claim C10 theorem.  In the richer variant every successfully executed
expression statement produces an escaping (`some`) block result, exactly
like a `return`: a block stops at the first statement that yields `some`
(later siblings unexecuted), and a repeat loop returns that value
immediately (remaining iterations skipped). -/
theorem c10_expression_statement_escapes :
    (∀ (O : FloatOracle) (n : Nat) (e : RM.Expression) (st : RM.InterpState)
        (r : Option RM.Value) (st' : RM.InterpState),
      RM.executeStatement O n (.expressionStatement e) st = .ok (r, st') →
      ∃ v, r = some v) ∧
    (∀ (O : FloatOracle) (n : Nat) (stmt : RM.Statement) (rest : List RM.Statement)
        (st : RM.InterpState) (v : RM.Value) (st' : RM.InterpState),
      RM.executeStatement O n stmt st = .ok (some v, st') →
      RM.executeBlock O (n + 1) (stmt :: rest) st = .ok (some v, st')) ∧
    (∀ (O : FloatOracle) (n : Nat) (body : List RM.Statement)
        (st : RM.InterpState) (v : RM.Value) (st' : RM.InterpState) (k : Nat),
      RM.executeBlock O n body st = .ok (some v, st') →
      RM.repeatLoop O (n + 1) (k + 1) body st = .ok (some v, st')) := by
  refine ⟨?_, ?_, ?_⟩
  · intro O n e st r st' h
    match n with
    | 0 => simp [RM.executeStatement] at h
    | m + 1 =>
      simp only [RM.executeStatement] at h
      split at h
      · exact absurd h (by simp)
      · split at h
        · split at h
          · split at h
            · exact absurd h (by simp)
            · simp only [Except.ok.injEq, Prod.mk.injEq] at h
              exact ⟨_, h.1.symm⟩
          · simp only [Except.ok.injEq, Prod.mk.injEq] at h
            exact ⟨_, h.1.symm⟩
        · simp only [Except.ok.injEq, Prod.mk.injEq] at h
          exact ⟨_, h.1.symm⟩
  · intro O n stmt rest st v st' h
    simp only [RM.executeBlock, h]
  · intro O n body st v st' k h
    simp only [RM.repeatLoop, h]

/-- Witness for `c10_expression_statement_escapes` at a concrete input:
a block whose head is the expression statement `1` escapes with the
Number 1, never reaching the following `return false`, and a 3-iteration
repeat over that block stops after the first iteration. -/
theorem c10_expression_statement_escapes_witness :
    (∃ v, (some (RM.Value.number (.fin 1)) : Option RM.Value) = some v) ∧
    RM.executeBlock dummyOracle 4
      [.expressionStatement (.number (.fin 1)), .returnStatement (.boolean false)]
      (RM.InterpState.init 0) =
      .ok (some (.number (.fin 1)), RM.InterpState.init 0) ∧
    RM.repeatLoop dummyOracle 5 3
      [.expressionStatement (.number (.fin 1)), .returnStatement (.boolean false)]
      (RM.InterpState.init 0) =
      .ok (some (.number (.fin 1)), RM.InterpState.init 0) :=
  ⟨c10_expression_statement_escapes.1 dummyOracle 3 (.number (.fin 1))
      (RM.InterpState.init 0) (some (.number (.fin 1))) (RM.InterpState.init 0) rfl,
   c10_expression_statement_escapes.2.1 dummyOracle 3 (.expressionStatement (.number (.fin 1)))
      [.returnStatement (.boolean false)] (RM.InterpState.init 0) (.number (.fin 1))
      (RM.InterpState.init 0) rfl,
   c10_expression_statement_escapes.2.2 dummyOracle 4
      [.expressionStatement (.number (.fin 1)), .returnStatement (.boolean false)]
      (RM.InterpState.init 0) (.number (.fin 1)) (RM.InterpState.init 0) 2
      (c10_expression_statement_escapes.2.1 dummyOracle 3
        (.expressionStatement (.number (.fin 1))) [.returnStatement (.boolean false)]
        (RM.InterpState.init 0) (.number (.fin 1)) (RM.InterpState.init 0) rfl)⟩

/-- The row-check loop succeeds exactly when every row has the expected
width. -/
theorem checkRows_ok_iff (w : Nat) :
    ∀ (rows : List (List Bool)) (i : Nat),
      RM.checkRows w rows i = .ok () ↔ ∀ r ∈ rows, r.length = w := by
  intro rows
  induction rows with
  | nil => intro i; simp [RM.checkRows]
  | cons r rest ih =>
    intro i
    by_cases hr : r.length = w
    · simp [RM.checkRows, hr, ih (i + 1)]
    · simp [RM.checkRows, hr]

/-- The row-check loop only ever fails with an invalid-frame-size
error. -/
theorem checkRows_error_shape (w : Nat) :
    ∀ (rows : List (List Bool)) (i : Nat) (e : GizmoError),
      RM.checkRows w rows i = .error e → ∃ msg, e = .invalidFrameSize msg := by
  intro rows
  induction rows with
  | nil => intro i e h; simp [RM.checkRows] at h
  | cons r rest ih =>
    intro i e h
    by_cases hr : r.length = w
    · simp [RM.checkRows, hr] at h
      exact ih (i + 1) e h
    · simp [RM.checkRows, hr] at h
      exact ⟨_, h.symm⟩

/-- Claim C7 theorem.  `Frame::from_array` succeeds exactly on a
non-empty list whose rows all share the first row's length; on success
the height is the row count, the width the common row length, and the
pixels the input; every failure carries the invalid-frame-construction
error. -/
theorem c7_from_array_characterization :
    ∀ data : List (List Bool),
      ((∃ f, RM.Frame.fromArray data = .ok f) ↔
        data ≠ [] ∧ ∀ row ∈ data, row.length = (data.headD []).length) ∧
      (∀ f, RM.Frame.fromArray data = .ok f →
        f.height = data.length ∧ f.width = (data.headD []).length ∧ f.pixels = data) ∧
      (∀ e, RM.Frame.fromArray data = .error e → ∃ msg, e = .invalidFrameSize msg) := by
  intro data
  match data with
  | [] =>
    refine ⟨?_, ?_, ?_⟩
    · simp [RM.Frame.fromArray]
    · intro f h; simp [RM.Frame.fromArray] at h
    · intro e h
      simp [RM.Frame.fromArray] at h
      exact ⟨_, h.symm⟩
  | d :: ds =>
    refine ⟨?_, ?_, ?_⟩
    · constructor
      · rintro ⟨f, hf⟩
        refine ⟨by simp, ?_⟩
        simp only [RM.Frame.fromArray] at hf
        rcases hck : RM.checkRows ((d :: ds).headD []).length (d :: ds) 0 with e | u
        · rw [hck] at hf; exact absurd hf (by simp)
        · exact (checkRows_ok_iff _ (d :: ds) 0).mp hck
      · rintro ⟨-, hrows⟩
        have hck := (checkRows_ok_iff ((d :: ds).headD []).length (d :: ds) 0).mpr hrows
        refine ⟨{ width := ((d :: ds).headD []).length, height := (d :: ds).length,
                  pixels := d :: ds }, ?_⟩
        simp only [RM.Frame.fromArray, hck]
    · intro f hf
      simp only [RM.Frame.fromArray] at hf
      rcases hck : RM.checkRows ((d :: ds).headD []).length (d :: ds) 0 with e | u
      · rw [hck] at hf; exact absurd hf (by simp)
      · rw [hck] at hf
        simp only [Except.ok.injEq] at hf
        subst hf
        exact ⟨rfl, rfl, rfl⟩
    · intro e he
      simp only [RM.Frame.fromArray] at he
      rcases hck : RM.checkRows ((d :: ds).headD []).length (d :: ds) 0 with e' | u
      · rw [hck] at he
        simp only [Except.error.injEq] at he
        subst he
        exact checkRows_error_shape _ (d :: ds) 0 e' hck
      · rw [hck] at he; exact absurd he (by simp)

/-- Witness for `c7_from_array_characterization` at concrete inputs: a
2×1 grid is accepted with the right dimensions, and a ragged grid is
rejected. -/
theorem c7_from_array_witness :
    (∃ f, RM.Frame.fromArray [[true], [false]] = .ok f) ∧
    ¬(∃ f, RM.Frame.fromArray [[true], [false, true]] = .ok f) ∧
    (∀ e, RM.Frame.fromArray [[true], [false, true]] = .error e →
      ∃ msg, e = .invalidFrameSize msg) :=
  ⟨(c7_from_array_characterization [[true], [false]]).1.mpr (by decide),
   fun hex =>
     (by decide :
       ¬([[true], [false, true]] ≠ [] ∧
         ∀ row ∈ [[true], [false, true]], row.length = ([[true], [false, true]].headD []).length))
       ((c7_from_array_characterization [[true], [false, true]]).1.mp hex),
   (c7_from_array_characterization [[true], [false, true]]).2.2⟩

/-- Claim C9 counterexample.  `values_equal` is not reflexive on every
same-variant pair: a NaN Number is not equal to itself (IEEE `<` on the
epsilon test is false for NaN), and two `Function` values — a variant of
`Value` — always compare false.  NaN Numbers are actually produced by
the code: in the leaner variant `(1 % 0) == (1 % 0)` evaluates to the
Number 0, a self-comparison coming out false. -/
theorem c9_reflexivity_counterexample :
    RM.valuesEqual (.number .nan) (.number .nan) = false ∧
    RM.valuesEqual (.function [] [] []) (.function [] [] []) = false ∧
    (SM.evaluateExpression dummyOracle 10
      (.binaryOperation
        (.binaryOperation (.number (.fin 1)) .modulo (.number (.fin 0))) .equal
        (.binaryOperation (.number (.fin 1)) .modulo (.number (.fin 0))))
      SM.InterpState.init = .ok (.number (.fin 0), SM.InterpState.init)) :=
  ⟨rfl, rfl, rfl⟩

/-- Claim C9 theorem (amended).  `values_equal` is reflexive on every
same-variant pair except NaN Numbers and `Function` values (Numbers
compare within `f64::EPSILON`), it is symmetric on all pairs, and it is
false on every cross-variant pair. -/
theorem c9_values_equal_properties :
    (∀ q : GQ, q.WFq →
      RM.valuesEqual (.number (.fin q)) (.number (.fin q)) = true) ∧
    (∀ s, RM.valuesEqual (.string s) (.string s) = true) ∧
    (∀ b, RM.valuesEqual (.boolean b) (.boolean b) = true) ∧
    (∀ f, RM.valuesEqual (.frame f) (.frame f) = true) ∧
    (∀ fs, RM.valuesEqual (.frames fs) (.frames fs) = true) ∧
    (∀ v w, RM.valuesEqual v w = RM.valuesEqual w v) ∧
    (∀ v w, v.typeName ≠ w.typeName → RM.valuesEqual v w = false) := by
  refine ⟨?_, ?_, ?_, ?_, ?_, ?_, ?_⟩
  · intro q hq
    have hpos : (0 : ℤ) < q.den * q.den := mul_pos hq hq
    simp only [RM.valuesEqual, GF.ltB, GF.absF, GF.sub, GQ.sub, GQ.absQ, GQ.blt, f64Epsilon,
      sub_self, abs_zero, zero_mul, one_mul, decide_eq_true_eq]
    exact abs_pos.mpr (ne_of_gt hpos)
  · intro s; simp [RM.valuesEqual]
  · intro b; simp [RM.valuesEqual]
  · intro f; simp [RM.valuesEqual]
  · intro fs; simp [RM.valuesEqual]
  · intro v w
    cases v <;> cases w <;> try rfl
    case number.number a b =>
      cases a <;> cases b <;> try rfl
      case fin.fin x y =>
        simp only [RM.valuesEqual, GF.ltB, GF.absF, GF.sub, GQ.sub, GQ.absQ, GQ.blt]
        rw [abs_sub_comm (x.num * y.den) (y.num * x.den), mul_comm x.den y.den]
    case string.string a b => simp [RM.valuesEqual, eq_comm]
    case boolean.boolean a b => simp [RM.valuesEqual, eq_comm]
    case frame.frame a b => simp [RM.valuesEqual, eq_comm]
    case frames.frames a b => simp [RM.valuesEqual, eq_comm]
  · intro v w hne
    cases v <;> cases w <;> first
      | rfl
      | exact absurd rfl hne

/-- Witness for `c9_values_equal_properties` at concrete inputs. -/
theorem c9_values_equal_witness :
    RM.valuesEqual (.number (.fin ⟨3, 2⟩)) (.number (.fin ⟨3, 2⟩)) = true ∧
    RM.valuesEqual (.number (.fin 1)) (.string "1") = false :=
  ⟨c9_values_equal_properties.1 ⟨3, 2⟩ (by show (0 : ℤ) < 2; decide),
   c9_values_equal_properties.2.2.2.2.2.2 (.number (.fin 1)) (.string "1") (by decide)⟩

/-- `getD` over a mapped range. -/
theorem getD_map_range {α : Type} (n : Nat) (g : Nat → α) (i : Nat) (d : α) :
    ((List.range n).map g).getD i d = if i < n then g i else d := by
  rcases Nat.lt_or_ge i n with h | h
  · simp [List.getD_eq_getElem?_getD, List.getElem?_map, List.getElem?_range, h]
  · have hnone : (List.range n)[i]? = none :=
      List.getElem?_eq_none (by simpa using h)
    simp [List.getD_eq_getElem?_getD, List.getElem?_map, hnone, Nat.not_lt.mpr h]

namespace RM

/-- The Frame invariant: the grid really is `height` rows of `width`
pixels. -/
def Frame.WF (f : Frame) : Prop :=
  f.pixels.length = f.height ∧ ∀ row ∈ f.pixels, row.length = f.width

theorem Frame.rotate90_width (f : Frame) : f.rotate90.width = f.height := rfl

theorem Frame.rotate90_height (f : Frame) : f.rotate90.height = f.width := rfl

/-- Pointwise description of `rotate_90`: entry `(i, j)` of the rotation
is entry `(height - 1 - j, i)` of the original. -/
theorem Frame.pix_rotate90 (f : Frame) (i j : Nat) :
    f.rotate90.pix i j =
      if i < f.width ∧ j < f.height then f.pix (f.height - 1 - j) i else false := by
  show ((((List.range f.width).map _).getD i []).getD j false) = _
  rw [getD_map_range]
  by_cases hi : i < f.width
  · rw [if_pos hi, getD_map_range]
    by_cases hj : j < f.height
    · rw [if_pos hj, if_pos ⟨hi, hj⟩]
    · rw [if_neg hj, if_neg (by tauto)]
  · rw [if_neg hi, if_neg (by tauto)]
    simp [List.getD]

/-- A rotation always satisfies the Frame invariant. -/
theorem Frame.rotate90_WF (f : Frame) : f.rotate90.WF := by
  constructor
  · simp [Frame.rotate90]
  · intro row hrow
    simp only [Frame.rotate90, List.mem_map, List.mem_range] at hrow
    obtain ⟨i, _, hrwi⟩ := hrow
    simp [Frame.rotate90, ← hrwi]

/-- Invariant-respecting frames with equal dimensions and equal pixels
are equal. -/
theorem Frame.eq_of_pix_eq (f g : Frame) (hf : f.WF) (hg : g.WF)
    (hw : f.width = g.width) (hh : f.height = g.height)
    (hpix : ∀ r c, r < f.height → c < f.width → f.pix r c = g.pix r c) : f = g := by
  obtain ⟨hflen, hfrow⟩ := hf
  obtain ⟨hglen, hgrow⟩ := hg
  have hpxlen : f.pixels.length = g.pixels.length := by rw [hflen, hglen, hh]
  have hpx : f.pixels = g.pixels := by
    apply List.ext_getElem hpxlen
    intro r h1 h2
    apply List.ext_getElem
    · rw [hfrow _ (List.getElem_mem h1), hgrow _ (List.getElem_mem h2), hw]
    · intro c hc1 hc2
      have hr : r < f.height := hflen ▸ h1
      have hcw : c < f.width := by
        rw [← hfrow _ (List.getElem_mem h1)]; exact hc1
      have hpc := hpix r c hr hcw
      simp only [Frame.pix] at hpc
      rw [List.getD_eq_getElem f.pixels [] h1, List.getD_eq_getElem g.pixels [] h2] at hpc
      rw [List.getD_eq_getElem _ false hc1, List.getD_eq_getElem _ false hc2] at hpc
      exact hpc
  cases f; cases g
  simp_all

end RM

/-- Claim C8 theorem.  On any invariant-respecting Frame, `rotate_90`
swaps width and height, produces the clockwise rotation (entry `(i, j)`
reads the original's `(height - 1 - j, i)`), and applying it four times
returns the original Frame. -/
theorem c8_rotate90_fourth_power_identity :
    ∀ f : RM.Frame, f.WF →
      f.rotate90.width = f.height ∧ f.rotate90.height = f.width ∧
      (∀ i j, i < f.width → j < f.height →
        f.rotate90.pix i j = f.pix (f.height - 1 - j) i) ∧
      f.rotate90.rotate90.rotate90.rotate90 = f := by
  intro f hf
  refine ⟨rfl, rfl, ?_, ?_⟩
  · intro i j hi hj
    simp [RM.Frame.pix_rotate90, hi, hj]
  · apply RM.Frame.eq_of_pix_eq f.rotate90.rotate90.rotate90.rotate90 f
      (RM.Frame.rotate90_WF _) hf rfl rfl
    intro r c hr hc
    have hr' : r < f.height := hr
    have hc' : c < f.width := hc
    have h1 : f.width - 1 - c < f.width := by omega
    have h2 : f.height - 1 - r < f.height := by omega
    have h3 : f.width - 1 - (f.width - 1 - c) = c := by omega
    have h4 : f.height - 1 - (f.height - 1 - r) = r := by omega
    simp [RM.Frame.pix_rotate90, RM.Frame.rotate90_width, RM.Frame.rotate90_height,
      hr', hc', h1, h2, h3, h4]

/-- Witness for `c8_rotate90_fourth_power_identity` at a concrete 2×1
frame. -/
theorem c8_rotate90_witness :
    (RM.Frame.WF { width := 2, height := 1, pixels := [[true, false]] }) ∧
    ({ width := 2, height := 1,
       pixels := [[true, false]] : RM.Frame}).rotate90.rotate90.rotate90.rotate90 =
      { width := 2, height := 1, pixels := [[true, false]] } :=
  ⟨⟨rfl, by decide⟩,
   (c8_rotate90_fourth_power_identity
      { width := 2, height := 1, pixels := [[true, false]] } ⟨rfl, by decide⟩).2.2.2⟩

/-- The environment-restoration invariant of the richer evaluator, proved
simultaneously for expression evaluation, argument evaluation, the
generator pixel loop and the three generator entry points, by induction
on fuel.  Expression evaluation never changes the interpreter's
environment: the only constructs that install a different environment are
the generators, and their pixel loop restores the saved environment after
every pixel, whatever the pixel body did in its child scope. -/
theorem evalEnvInvariant (O : FloatOracle) :
    ∀ n : Nat,
      (∀ e st v st', RM.evaluateExpression O n e st = .ok (v, st') →
        st'.environment = st.environment) ∧
      (∀ es st vs st', RM.evalArgs O n es st = .ok (vs, st') →
        st'.environment = st.environment) ∧
      (∀ cs extras body fr st fr' st',
        RM.genLoop O n cs extras body fr st = .ok (fr', st') →
        st'.environment = st.environment) ∧
      (∀ w h body st v st',
        RM.generatePatternFrame O n w h body st = .ok (v, st') →
        st'.environment = st.environment) ∧
      (∀ w h tv body st v st',
        RM.generateAnimatedFrame O n w h tv body st = .ok (v, st') →
        st'.environment = st.environment) ∧
      (∀ w h pv body st v st',
        RM.generateCellularFrame O n w h pv body st = .ok (v, st') →
        st'.environment = st.environment) := by
  intro n
  induction n with
  | zero =>
    refine ⟨?_, ?_, ?_, ?_, ?_, ?_⟩
    · intro e st v st' h; simp [RM.evaluateExpression] at h
    · intro es st vs st' h; simp [RM.evalArgs] at h
    · intro cs extras body fr st fr' st' h; simp [RM.genLoop] at h
    · intro w h' body st v st' h; simp [RM.generatePatternFrame] at h
    · intro w h' tv body st v st' h; simp [RM.generateAnimatedFrame] at h
    · intro w h' pv body st v st' h; simp [RM.generateCellularFrame] at h
  | succ n ih =>
    obtain ⟨ihE, ihA, ihL, ihP, ihAn, ihC⟩ := ih
    have closeOk : ∀ {α : Type} (a : α) (b : RM.InterpState) (v : α)
        (st' : RM.InterpState), Except.ok (ε := RunErr) (a, b) = .ok (v, st') → st' = b := by
      intro α a b v st' h
      simp only [Except.ok.injEq, Prod.mk.injEq] at h
      exact h.2.symm
    refine ⟨?_, ?_, ?_, ?_, ?_, ?_⟩
    · intro e st v st' h
      match e with
      | .number q => rw [closeOk _ _ _ _ h]
      | .string s => rw [closeOk _ _ _ _ h]
      | .boolean b => rw [closeOk _ _ _ _ h]
      | .identifier name =>
        simp only [RM.evaluateExpression] at h
        split at h
        · rw [closeOk _ _ _ _ h]
        · split at h
          · exact absurd h (by simp)
          · rw [closeOk _ _ _ _ h]
      | .array elements =>
        simp only [RM.evaluateExpression] at h
        split at h
        · exact absurd h (by simp)
        · rename_i values st1 heq
          split at h
          · rw [closeOk _ _ _ _ h]; exact ihA _ _ _ _ heq
          · split at h
            · split at h
              · exact absurd h (by simp)
              · rw [closeOk _ _ _ _ h]; exact ihA _ _ _ _ heq
            · split at h
              · exact absurd h (by simp)
              · rw [closeOk _ _ _ _ h]; exact ihA _ _ _ _ heq
      | .functionCall name args =>
        simp only [RM.evaluateExpression] at h
        split at h
        · exact absurd h (by simp)
        · rename_i argValues st1 heq
          split at h
          · split at h
            · exact absurd h (by simp)
            · rw [closeOk _ _ _ _ h]; exact ihA _ _ _ _ heq
          · exact absurd h (by simp)
      | .binary l op r =>
        simp only [RM.evaluateExpression] at h
        split at h
        · exact absurd h (by simp)
        · rename_i lv st1 heq1
          split at h
          · exact absurd h (by simp)
          · rename_i rv st2 heq2
            split at h
            · exact absurd h (by simp)
            · rw [closeOk _ _ _ _ h]
              exact (ihE _ _ _ _ heq2).trans (ihE _ _ _ _ heq1)
      | .unary op operand =>
        simp only [RM.evaluateExpression] at h
        split at h
        · exact absurd h (by simp)
        · rename_i ov st1 heq
          split at h
          · exact absurd h (by simp)
          · rw [closeOk _ _ _ _ h]; exact ihE _ _ _ _ heq
      | .indexOp obj idx =>
        simp only [RM.evaluateExpression] at h
        split at h
        · exact absurd h (by simp)
        · rename_i ov st1 heq1
          split at h
          · exact absurd h (by simp)
          · rename_i iv st2 heq2
            split at h
            · exact absurd h (by simp)
            · rw [closeOk _ _ _ _ h]
              exact (ihE _ _ _ _ heq2).trans (ihE _ _ _ _ heq1)
      | .patternGenerator w hh body =>
        simp only [RM.evaluateExpression] at h
        split at h
        · exact absurd h (by simp)
        · rename_i wv st1 heq1
          split at h
          · exact absurd h (by simp)
          · split at h
            · exact absurd h (by simp)
            · rename_i hv st2 heq2
              split at h
              · exact absurd h (by simp)
              · exact ((ihP _ _ _ _ _ _ h).trans (ihE _ _ _ _ heq2)).trans
                  (ihE _ _ _ _ heq1)
      | .animatedGenerator w hh tv body =>
        simp only [RM.evaluateExpression] at h
        split at h
        · exact absurd h (by simp)
        · rename_i wv st1 heq1
          split at h
          · exact absurd h (by simp)
          · split at h
            · exact absurd h (by simp)
            · rename_i hv st2 heq2
              split at h
              · exact absurd h (by simp)
              · exact ((ihAn _ _ _ _ _ _ _ h).trans (ihE _ _ _ _ heq2)).trans
                  (ihE _ _ _ _ heq1)
      | .cellularGenerator w hh pv body =>
        simp only [RM.evaluateExpression] at h
        split at h
        · exact absurd h (by simp)
        · rename_i wv st1 heq1
          split at h
          · exact absurd h (by simp)
          · split at h
            · exact absurd h (by simp)
            · rename_i hv st2 heq2
              split at h
              · exact absurd h (by simp)
              · exact ((ihC _ _ _ _ _ _ _ h).trans (ihE _ _ _ _ heq2)).trans
                  (ihE _ _ _ _ heq1)
      | .conditional c t el =>
        simp only [RM.evaluateExpression] at h
        split at h
        · exact absurd h (by simp)
        · rename_i cv st1 heq
          split at h
          · exact (ihE _ _ _ _ h).trans (ihE _ _ _ _ heq)
          · exact (ihE _ _ _ _ h).trans (ihE _ _ _ _ heq)
    · intro es st vs st' h
      match es with
      | [] =>
        simp only [RM.evalArgs, Except.ok.injEq, Prod.mk.injEq] at h
        rw [← h.2]
      | e :: rest =>
        simp only [RM.evalArgs] at h
        split at h
        · exact absurd h (by simp)
        · rename_i v1 st1 heq1
          split at h
          · exact absurd h (by simp)
          · rename_i vrest st2 heq2
            rw [closeOk _ _ _ _ h]
            exact (ihA _ _ _ _ heq2).trans (ihE _ _ _ _ heq1)
    · intro cs extras body fr st fr' st' h
      match cs with
      | [] =>
        simp only [RM.genLoop, Except.ok.injEq, Prod.mk.injEq] at h
        rw [← h.2]
      | (row, col) :: rest =>
        simp only [RM.genLoop] at h
        split at h
        · exact absurd h (by simp)
        · rename_i pv st1 heq1
          split at h
          · exact absurd h (by simp)
          · rename_i frame2 heq2
            have hres := ihL _ _ _ _ _ _ _ h
            simpa using hres
    · intro w hh body st v st' h
      simp only [RM.generatePatternFrame] at h
      split at h
      · exact absurd h (by simp)
      · rename_i fr2 st1 heq
        rw [closeOk _ _ _ _ h]
        exact ihL _ _ _ _ _ _ _ heq
    · intro w hh tv body st v st' h
      simp only [RM.generateAnimatedFrame] at h
      split at h
      · exact absurd h (by simp)
      · rename_i fr2 st1 heq
        rw [closeOk _ _ _ _ h]
        exact ihL _ _ _ _ _ _ _ heq
    · intro w hh pv body st v st' h
      simp only [RM.generateCellularFrame] at h
      split at h
      · rename_i prevFrame heq0
        split at h
        · exact absurd h (by simp)
        · rename_i fr2 st1 heq
          rw [closeOk _ _ _ _ h]
          exact ihL _ _ _ _ _ _ _ heq
      · exact absurd h (by simp)

/-- Claim C3 theorem.  Evaluating any generator expression (pattern,
animated, or cellular) leaves the interpreter's environment exactly as it
was: each pixel body runs in a child scope enclosing (a clone of) the
generator's environment, and the pixel loop restores that environment
after every pixel, so no binding created or assigned inside a pixel body
survives the generator, and each later pixel starts from the same
environment `E` — the only cross-pixel channels are the explicitly
re-bound `row`/`col`/time/previous-frame extras of the child scope. -/
theorem c3_generator_scope_isolation :
    ∀ (O : FloatOracle) (n : Nat) (w h : RM.Expression) (body : List RM.Statement)
      (st : RM.InterpState) (v : RM.Value) (st' : RM.InterpState),
      (RM.evaluateExpression O n (.patternGenerator w h body) st = .ok (v, st') →
        st'.environment = st.environment) ∧
      (∀ timeVar,
        RM.evaluateExpression O n (.animatedGenerator w h timeVar body) st = .ok (v, st') →
        st'.environment = st.environment) ∧
      (∀ prevVar,
        RM.evaluateExpression O n (.cellularGenerator w h prevVar body) st = .ok (v, st') →
        st'.environment = st.environment) :=
  fun O n w h body st v st' =>
    ⟨fun hyp => (evalEnvInvariant O n).1 _ _ _ _ hyp,
     fun _ hyp => (evalEnvInvariant O n).1 _ _ _ _ hyp,
     fun _ hyp => (evalEnvInvariant O n).1 _ _ _ _ hyp⟩

/-- Witness for `c3_generator_scope_isolation` at a concrete input: a
1×1 pattern whose body declares a fresh variable and assigns through it
still finishes with the initial (empty) environment. -/
theorem c3_generator_scope_isolation_witness :
    RM.evaluateExpression dummyOracle 10
      (.patternGenerator (.number (.fin 1)) (.number (.fin 1))
        [.variableDeclaration .num "y" (.number (.fin 5)),
         .returnStatement (.boolean true)])
      (RM.InterpState.init 0) =
      .ok (.frame { width := 1, height := 1, pixels := [[true]] },
           RM.InterpState.init 0) ∧
    (RM.InterpState.init 0).environment = (RM.InterpState.init 0).environment :=
  ⟨rfl,
   (c3_generator_scope_isolation dummyOracle 10 (.number (.fin 1)) (.number (.fin 1))
      [.variableDeclaration .num "y" (.number (.fin 5)), .returnStatement (.boolean true)]
      (RM.InterpState.init 0)
      (.frame { width := 1, height := 1, pixels := [[true]] })
      (RM.InterpState.init 0)).1 rfl⟩
